import Mathlib

/-!
Verification of the PC screenshot subsystem of ZenlessZoneZero-OneDragon.

The development shallowly embeds the Python code under
`src/one_dragon/base/controller/pc_screenshot/`:

* `PcScreenshotController` (pc_screenshot_controller.py) — the controller
  level is embedded with each strategy abstracted by the outcome of its
  `init()` / `capture()` call for the call under consideration, exactly as
  the controller code treats strategies (duck-typed objects looked up in
  the `strategies` dict).
* `GdiScreencapperBase` / `BitmapResourceMixin` (gdi_screencapper_base.py),
  `PrintWindowScreencapper` (print_window_screencapper.py),
  `BitBltScreencapper` (bitblt_screencapper.py) — the strategy level is
  embedded as explicit state passing over a `GdiState` record mirroring the
  instance fields, with an `OsEnv` record supplying the outcomes of the
  WinAPI calls and a trace of OS actions recording every handle that is
  acquired or released.

Python truthiness of handles (`if not hBitmap`) is modelled by comparing
with 0; `None` fields are `Option` values.  Images are modelled by their
shape, which is all the code inspects or transforms (reshape, cvtColor,
resize).
-/

namespace PcScreenshot

/-- Shape of a pixel array `(height, width, channels)`; the only attribute of
an image that the capture code manipulates. -/
structure Shape where
  height : Int
  width : Int
  channels : Int
deriving DecidableEq, Repr

/-- The part of `one_dragon.base.geometry.rectangle.Rect` the capture code
reads: origin and dimensions (`rect.width` / `rect.height` may be
non-positive for degenerate windows). -/
structure Rect where
  x1 : Int
  y1 : Int
  width : Int
  height : Int
deriving DecidableEq, Repr

/-! ## Controller level (pc_screenshot_controller.py)

The controller is embedded over abstract per-call strategy behaviours:
`initOf n` is the value returned by strategy `n`'s `init()` and
`capOf n` the value returned by its `capture(rect, independent)` (with
`none` also covering a raised exception, which the controller's
`except Exception: continue` treats identically).  Events record which
strategy methods the controller invoked. -/

/-- Keys of `PcScreenshotController.strategies`, in dict insertion order. -/
def strategyNames : List String := ["bitblt", "print_window", "pil"]

/-- `PcScreenshotController._get_method_priority_list`: the static fallback
table, with the hard-coded default order for unknown keys. -/
def methodPriorityList (m : String) : List String :=
  if m = "bitblt" then ["bitblt", "print_window", "pil"]
  else if m = "print_window" then ["print_window", "bitblt", "pil"]
  else if m = "pil" then ["pil", "bitblt", "print_window"]
  else ["bitblt", "print_window", "pil"]

/-- Observable controller events: strategy cleanup, `init()` calls and
`capture()` calls together with their outcome. -/
inductive AEvent where
  | cleanupStrategy (n : String)
  | initCall (n : String) (ok : Bool)
  | captureCall (n : String) (ok : Bool)
deriving DecidableEq, Repr

/-- The `for attempt_method in methods_to_try` loop of
`PcScreenshotController.init_screenshot`: look the name up in the
strategies dict (`strategies.get`), skip missing names, call `init()` and
stop at the first success. -/
def initLoop (initOf : String → Bool) : List String → Option String × List AEvent
  | [] => (none, [])
  | n :: rest =>
    if strategyNames.contains n then
      if initOf n then (some n, [AEvent.initCall n true])
      else
        let r := initLoop initOf rest
        (r.1, AEvent.initCall n false :: r.2)
    else initLoop initOf rest

/-- `PcScreenshotController.init_screenshot`: cleans up every strategy
(`cleanup_resources`, which also clears the active name), walks the
priority list, sets the active strategy to the first success and returns
it; on exhaustion the active name is (re)set to `None` and `None` is
returned.  The result is `(returned name, active name afterwards, events)`;
the input active name is irrelevant because `cleanup_resources` clears it
first. -/
def init_screenshot (initOf : String → Bool) (_active : Option String) (m : String) :
    Option String × Option String × List AEvent :=
  let cleanupEvs := strategyNames.map AEvent.cleanupStrategy
  let r := initLoop initOf (methodPriorityList m)
  (r.1, r.1, cleanupEvs ++ r.2)

/-- Python truthiness of `self.active_strategy_name` (`None` and the empty
string are falsy). -/
def activeTruthy : Option String → Bool
  | none => false
  | some a => !a.isEmpty

/-- The `for method_name in methods_to_try_names` loop of
`PcScreenshotController.get_screenshot`: skip names missing from the dict,
call `capture()`, continue on `None` (or exception), and on the first
success promote the winner to active when the call is not independent. -/
def tryCapture (capOf : String → Option Shape) (active : Option String)
    (independent : Bool) : List String → Option Shape × Option String × List AEvent
  | [] => (none, active, [])
  | n :: rest =>
    if strategyNames.contains n then
      match capOf n with
      | none =>
        let r := tryCapture capOf active independent rest
        (r.1, r.2.1, AEvent.captureCall n false :: r.2.2)
      | some img =>
        let a' := if !independent && active != some n then some n else active
        (some img, a', [AEvent.captureCall n true])
    else tryCapture capOf active independent rest

/-- `PcScreenshotController.get_screenshot`: fail fast when uninitialized
and not independent; fail when the window rectangle is `None`; otherwise
walk the priority list (default order when independent, active-first
otherwise) promoting the first winner.  Result is
`(image, active name afterwards, events)`. -/
def get_screenshot (capOf : String → Option Shape) (active : Option String)
    (rect : Option Rect) (independent : Bool) :
    Option Shape × Option String × List AEvent :=
  if !activeTruthy active && !independent then (none, active, [])
  else
    match rect with
    | none => (none, active, [])
    | some _ =>
      let names := if independent then methodPriorityList "auto"
                   else methodPriorityList (active.getD "")
      tryCapture capOf active independent names

/-- `PilScreencapper.init` returns `True` unconditionally
(pil_screencapper.py). -/
def pilInit : Bool := true

/-! ## Strategy level (gdi_screencapper_base.py, print_window_screencapper.py)

The GDI strategies are embedded by explicit state passing over `GdiState`
(the instance fields).  An `OsEnv` record supplies the outcomes of the
WinAPI calls for the duration of one scenario, and every operation also
returns the list of OS actions it performed, so that acquisition and
release of native handles is observable. -/

/-- OS actions performed through ctypes.  Creation actions record the
returned handle (0 models a NULL result). -/
inductive OsAct where
  | getDC (hwnd dc : Nat)
  | createDC (src dc : Nat)
  | createDIB (w h : Int) (hdc hbm ptr : Nat)
  | deleteObject (h : Nat)
  | deleteDC (h : Nat)
  | releaseDC (hwnd dc : Nat)
  | selectObject (dc obj : Nat)
  | printWindowCall (ok : Bool)
  | bitBltCall (ok : Bool)
  | getDIBitsCall (lines : Int)
deriving DecidableEq, Repr

/-- Outcomes of the WinAPI calls and of the window descriptor during one
scenario, plus the strategy's construction-time configuration
(`standard_width` / `standard_height`) and the window's rescale flag. -/
structure OsEnv where
  hwnd : Nat
  getDC : Nat → Nat
  createCompatibleDC : Nat → Nat
  createDIBSection : Int → Int → Nat → Nat × Nat
  selectObject : Nat → Nat → Nat
  printWindowOk : Bool
  bitBltOk : Bool
  getDIBitsLines : Int → Int
  isWinScale : Bool
  standardWidth : Int
  standardHeight : Int

/-- `BITMAPINFO` header contents that `_create_bmpinfo_buffer` fills in:
`biWidth = width`, `biHeight = -height` (top-down DIB). -/
structure BmpInfo where
  biWidth : Int
  biHeight : Int
deriving DecidableEq, Repr

/-- `BitmapResourceMixin._create_bmpinfo_buffer`. -/
def createBmpinfoBuffer (w h : Int) : BmpInfo := ⟨w, -h⟩

/-- Instance fields of a GDI screencapper (`GdiScreencapperBase.__init__` /
`PrintWindowScreencapper.__init__`).  The pixel buffer is modelled by its
length; `selectedPrev` is the `_selected_prev` attribute (absent models
`None`). -/
structure GdiState where
  hwndDC : Option Nat := none
  mfcDC : Option Nat := none
  saveBitMap : Option Nat := none
  buffer : Option Int := none
  bmpinfoBuffer : Option BmpInfo := none
  width : Int := 0
  height : Int := 0
  hwndForDc : Option Nat := none
  selectedPrev : Option Nat := none
deriving DecidableEq, Repr

/-- Python truthiness of an optional handle (`None` and 0 are falsy). -/
def optTruthy : Option Nat → Bool
  | none => false
  | some n => n != 0

/-- Python truthiness of the optional pixel buffer: `None` is falsy and a
ctypes array is falsy exactly when its length is 0. -/
def bufTruthy : Option Int → Bool
  | none => false
  | some len => len != 0

/-- `BitmapResourceMixin._create_bitmap_resources`: `CreateDIBSection`
yields a handle and a pixel pointer; a zero handle raises immediately; a
valid handle with a null pixel pointer is deleted by the creator itself
before raising (`none` models the raised exception); otherwise the triple
(handle, buffer of length `w*h*4`, bitmap info) is returned. -/
def createBitmapResources (env : OsEnv) (w h : Int) (hwndDC : Option Nat) :
    Option (Nat × Int × BmpInfo) × List OsAct :=
  let hdcVal : Nat := if optTruthy hwndDC then hwndDC.getD 0 else 0
  let r := env.createDIBSection w h hdcVal
  let t := [OsAct.createDIB w h hdcVal r.1 r.2]
  if r.1 = 0 then (none, t)
  else if r.2 = 0 then (none, t ++ [OsAct.deleteObject r.1])
  else (some (r.1, w * h * 4, createBmpinfoBuffer w h), t)

/-- `GdiScreencapperBase.cleanup` (and the textually identical
`PrintWindowScreencapper.cleanup`): when no resource field is truthy, the
fields are simply cleared; otherwise the previously selected object is
restored if recorded, the bitmap, compatible DC and window DC are
released, and the fields are cleared.  `_selected_prev` is cleared only
when the restore branch runs. -/
def gdiCleanup (s : GdiState) : GdiState × List OsAct :=
  if !(optTruthy s.hwndDC || optTruthy s.mfcDC || optTruthy s.saveBitMap) then
    ({ s with hwndDC := none, mfcDC := none, saveBitMap := none,
              buffer := none, bmpinfoBuffer := none, width := 0, height := 0,
              hwndForDc := none }, [])
  else
    let bm :=
      if optTruthy s.saveBitMap then
        let restore :=
          if optTruthy s.mfcDC && s.selectedPrev.isSome then
            ((none : Option Nat),
             [OsAct.selectObject (s.mfcDC.getD 0) (s.selectedPrev.getD 0)])
          else (s.selectedPrev, [])
        (restore.1, restore.2 ++ [OsAct.deleteObject (s.saveBitMap.getD 0)])
      else (s.selectedPrev, ([] : List OsAct))
    let t2 := if optTruthy s.mfcDC then [OsAct.deleteDC (s.mfcDC.getD 0)] else []
    let t3 :=
      if optTruthy s.hwndDC && optTruthy s.hwndForDc then
        [OsAct.releaseDC (s.hwndForDc.getD 0) (s.hwndDC.getD 0)]
      else []
    ({ hwndDC := none, mfcDC := none, saveBitMap := none, buffer := none,
       bmpinfoBuffer := none, width := 0, height := 0, hwndForDc := none,
       selectedPrev := bm.1 : GdiState }, bm.2 ++ t2 ++ t3)

/-- `GdiScreencapperBase.init` (and the textually identical
`PrintWindowScreencapper.init`): cleanup, then resolve the window handle,
acquire the window DC and a compatible DC; on any failure the exception
handler runs `cleanup` again and returns false; on success the two DCs and
the handle used to acquire them are stored together. -/
def gdiInit (env : OsEnv) (s : GdiState) : Bool × GdiState × List OsAct :=
  let c := gdiCleanup s
  if env.hwnd = 0 then
    let c2 := gdiCleanup c.1
    (false, c2.1, c.2 ++ c2.2)
  else
    let dc := env.getDC env.hwnd
    let tG := [OsAct.getDC env.hwnd dc]
    if dc = 0 then
      let c2 := gdiCleanup c.1
      (false, c2.1, c.2 ++ tG ++ c2.2)
    else
      let mdc := env.createCompatibleDC dc
      let tC := [OsAct.createDC dc mdc]
      if mdc = 0 then
        let c2 := gdiCleanup c.1
        (false, c2.1, c.2 ++ tG ++ tC ++ [OsAct.releaseDC env.hwnd dc] ++ c2.2)
      else
        (true, { c.1 with hwndDC := some dc, mfcDC := some mdc,
                          hwndForDc := some env.hwnd }, c.2 ++ tG ++ tC)

/-- `GdiScreencapperBase.ensure_bitmap_resources` (and the inline
double-checked block of `PrintWindowScreencapper._capture_with_retry`,
which is the same logic with `hwndDC_for_create = None`): when the cached
bitmap is missing or its dimensions differ, restore the previously
selected object if recorded, delete the old bitmap, and create a new
resource triple; creation failure returns false with the stale fields left
as they were. -/
def ensureBitmapResources (env : OsEnv) (s : GdiState) (w h : Int)
    (hdcCreate : Option Nat) : Bool × GdiState × List OsAct :=
  if !(s.saveBitMap.isNone || s.width != w || s.height != h) then (true, s, [])
  else
    let old :=
      if optTruthy s.saveBitMap then
        let restore :=
          if optTruthy s.mfcDC && s.selectedPrev.isSome then
            ((none : Option Nat),
             [OsAct.selectObject (s.mfcDC.getD 0) (s.selectedPrev.getD 0)])
          else (s.selectedPrev, [])
        (restore.1, restore.2 ++ [OsAct.deleteObject (s.saveBitMap.getD 0)])
      else (s.selectedPrev, ([] : List OsAct))
    let s1 := { s with selectedPrev := old.1 }
    match createBitmapResources env w h hdcCreate with
    | (none, t2) => (false, s1, old.2 ++ t2)
    | (some r, t2) =>
        (true, { s1 with saveBitMap := some r.1, buffer := some r.2.1,
                         bmpinfoBuffer := some r.2.2, width := w,
                         height := h },
         old.2 ++ t2)

/-- Shape that a successful capture must produce, given the call's
dimensions and the rescale configuration. -/
def expectedShape (env : OsEnv) (w h : Int) : Shape :=
  if env.isWinScale then ⟨env.standardHeight, env.standardWidth, 3⟩
  else ⟨h, w, 3⟩

/-- `BitmapResourceMixin._capture_bitmap_to_image`: validate the handles
and buffer (Python `all([...])`), select the bitmap into the memory DC,
run `PrintWindow` or `BitBlt`, read the rows back with `GetDIBits`
(failure when the returned row count differs from the height), convert the
buffer to an array (raising, hence `None`, when its length is not
`w*h*4`), convert BGRA→RGB and rescale when configured (with non-positive
standard dimensions `cv2.resize` raises and the handler returns `None`);
the previously selected object is restored on every exit path past the
selection. -/
def captureBitmapToImage (env : OsEnv) (w h : Int)
    (hwndDC mfcDC saveBitMap : Option Nat) (buffer : Option Int)
    (bmpinfo : Option BmpInfo) (usePrintwindow : Bool) :
    Option Shape × List OsAct :=
  if !(optTruthy hwndDC && optTruthy mfcDC && optTruthy saveBitMap &&
       bufTruthy buffer && bmpinfo.isSome) then (none, [])
  else
    let dc := mfcDC.getD 0
    let bm := saveBitMap.getD 0
    let prev := env.selectObject dc bm
    let tSel := [OsAct.selectObject dc bm]
    let tRestore := [OsAct.selectObject dc prev]
    let primOk := if usePrintwindow then env.printWindowOk else env.bitBltOk
    let tPrim := if usePrintwindow then [OsAct.printWindowCall env.printWindowOk]
                 else [OsAct.bitBltCall env.bitBltOk]
    if !primOk then (none, tSel ++ tPrim ++ tRestore)
    else
      let lines := env.getDIBitsLines h
      let tL := [OsAct.getDIBitsCall lines]
      if lines ≠ h then (none, tSel ++ tPrim ++ tL ++ tRestore)
      else if buffer.getD 0 ≠ w * h * 4 then (none, tSel ++ tPrim ++ tL ++ tRestore)
      else
        let res :=
          if env.isWinScale && env.standardWidth != 0 && env.standardHeight != 0 then
            if env.standardWidth > 0 && env.standardHeight > 0 then
              some (⟨env.standardHeight, env.standardWidth, 3⟩ : Shape)
            else none
          else some (⟨h, w, 3⟩ : Shape)
        (res, tSel ++ tPrim ++ tL ++ tRestore)

/-- `GdiScreencapperBase._try_capture_once`: ensure a correctly sized
bitmap exists, then capture through the cached resources. -/
def tryCaptureOnce (env : OsEnv) (s : GdiState) (w h : Int)
    (usePrintwindow : Bool) : Option Shape × GdiState × List OsAct :=
  if s.saveBitMap.isNone || s.width != w || s.height != h then
    let e := ensureBitmapResources env s w h none
    if !e.1 then (none, e.2.1, e.2.2)
    else
      let c := captureBitmapToImage env w h e.2.1.hwndDC e.2.1.mfcDC
        e.2.1.saveBitMap e.2.1.buffer e.2.1.bmpinfoBuffer usePrintwindow
      (c.1, e.2.1, e.2.2 ++ c.2)
  else
    let c := captureBitmapToImage env w h s.hwndDC s.mfcDC s.saveBitMap
      s.buffer s.bmpinfoBuffer usePrintwindow
    (c.1, s, c.2)

/-- `GdiScreencapperBase._capture_independent_generic`: acquire a private
window DC, compatible DC and bitmap triple, capture, and release
everything in the `finally` block; instance state is never touched. -/
def captureIndependentGeneric (env : OsEnv) (hwnd : Nat) (w h : Int)
    (usePrintwindow : Bool) : Option Shape × List OsAct :=
  let dc := env.getDC hwnd
  let t1 := [OsAct.getDC hwnd dc]
  if dc = 0 then (none, t1)
  else
    let mdc := env.createCompatibleDC dc
    let t2 := [OsAct.createDC dc mdc]
    if mdc = 0 then (none, t1 ++ t2 ++ [OsAct.releaseDC hwnd dc])
    else
      match createBitmapResources env w h (some dc) with
      | (none, t3) =>
          (none, t1 ++ t2 ++ t3 ++ [OsAct.deleteDC mdc, OsAct.releaseDC hwnd dc])
      | (some r, t3) =>
          let c := captureBitmapToImage env w h (some dc) (some mdc)
            (some r.1) (some r.2.1) (some r.2.2) usePrintwindow
          (c.1, t1 ++ t2 ++ t3 ++ c.2 ++
            [OsAct.deleteObject r.1, OsAct.deleteDC mdc, OsAct.releaseDC hwnd dc])

/-- `GdiScreencapperBase.capture_common`: resolve the window handle,
validate the rectangle, dispatch to the independent path, otherwise (under
the instance lock) initialize on demand, try once, and optionally
reinitialize and retry when the `retry` flag is set
(`BitBltScreencapper.capture` passes `retry=False`). -/
def captureCommon (env : OsEnv) (s : GdiState) (rect : Rect)
    (independent usePrintwindow retryFlag : Bool) :
    Option Shape × GdiState × List OsAct :=
  if env.hwnd = 0 then (none, s, [])
  else if rect.width ≤ 0 || rect.height ≤ 0 then (none, s, [])
  else if independent then
    let r := captureIndependentGeneric env env.hwnd rect.width rect.height
      usePrintwindow
    (r.1, s, r.2)
  else
    let step0 : Bool × GdiState × List OsAct :=
      if s.hwndDC.isNone || s.mfcDC.isNone then gdiInit env s else (true, s, [])
    if !step0.1 then (none, step0.2.1, step0.2.2)
    else
      let a1 := tryCaptureOnce env step0.2.1 rect.width rect.height usePrintwindow
      if a1.1.isSome then (a1.1, a1.2.1, step0.2.2 ++ a1.2.2)
      else if retryFlag then
        let i2 := gdiInit env a1.2.1
        if !i2.1 then (none, i2.2.1, step0.2.2 ++ a1.2.2 ++ i2.2.2)
        else
          let a2 := tryCaptureOnce env i2.2.1 rect.width rect.height usePrintwindow
          (a2.1, a2.2.1, step0.2.2 ++ a1.2.2 ++ i2.2.2 ++ a2.2.2)
      else (none, a1.2.1, step0.2.2 ++ a1.2.2)

/-- `BitBltScreencapper.capture`: `capture_common` with `use_printwindow =
False` and `retry = False`. -/
def bitbltCapture (env : OsEnv) (s : GdiState) (rect : Rect)
    (independent : Bool) : Option Shape × GdiState × List OsAct :=
  captureCommon env s rect independent false false

/-- `PrintWindowScreencapper._capture_window_to_bitmap`: like the mixin
capture, but records the previously selected object in `_selected_prev`
while the bitmap is selected (clearing it in the `finally` block) and
rescales whenever the window's rescale flag is set, without checking the
standard dimensions for zero (`cv2.resize` raises on a non-positive size
and the handler returns `None`). -/
def pwCaptureWindowToBitmap (env : OsEnv) (s : GdiState) (w h : Int)
    (hwndDC mfcDC saveBitMap : Option Nat) (buffer : Option Int)
    (bmpinfo : Option BmpInfo) : Option Shape × GdiState × List OsAct :=
  if !(optTruthy hwndDC && optTruthy mfcDC && optTruthy saveBitMap &&
       bufTruthy buffer && bmpinfo.isSome) then (none, s, [])
  else
    let dc := mfcDC.getD 0
    let bm := saveBitMap.getD 0
    let prev := env.selectObject dc bm
    let tSel := [OsAct.selectObject dc bm]
    let tRestore := [OsAct.selectObject dc prev]
    let sFinal := { s with selectedPrev := none }
    if !env.printWindowOk then
      (none, sFinal, tSel ++ [OsAct.printWindowCall false] ++ tRestore)
    else
      let lines := env.getDIBitsLines h
      let tL := [OsAct.getDIBitsCall lines]
      if lines ≠ h then
        (none, sFinal, tSel ++ [OsAct.printWindowCall true] ++ tL ++ tRestore)
      else if buffer.getD 0 ≠ w * h * 4 then
        (none, sFinal, tSel ++ [OsAct.printWindowCall true] ++ tL ++ tRestore)
      else
        let res :=
          if env.isWinScale then
            if env.standardWidth > 0 && env.standardHeight > 0 then
              some (⟨env.standardHeight, env.standardWidth, 3⟩ : Shape)
            else none
          else some (⟨h, w, 3⟩ : Shape)
        (res, sFinal, tSel ++ [OsAct.printWindowCall true] ++ tL ++ tRestore)

/-- The inline double-checked bitmap (re)creation block of
`PrintWindowScreencapper._capture_with_retry` (lines 162-195): when the
cached bitmap is missing or mis-sized, the previously selected object is
restored if recorded and the old bitmap deleted, but the subsequent
`self._create_bitmap_resources(width, height)` call (line 186) always
raises `AttributeError` before any OS call, because
`PrintWindowScreencapper` is declared as `class
PrintWindowScreencapper(ScreencapperBase)` (line 21) and never inherits
`BitmapResourceMixin`, where that method lives; the `except Exception`
handler logs and returns `None` with the stale fields left as they were.
So PrintWindow bitmap creation always fails. -/
def pwEnsureBitmapResources (s : GdiState) (w h : Int) :
    Bool × GdiState × List OsAct :=
  if !(s.saveBitMap.isNone || s.width != w || s.height != h) then (true, s, [])
  else
    let old :=
      if optTruthy s.saveBitMap then
        let restore :=
          if optTruthy s.mfcDC && s.selectedPrev.isSome then
            ((none : Option Nat),
             [OsAct.selectObject (s.mfcDC.getD 0) (s.selectedPrev.getD 0)])
          else (s.selectedPrev, [])
        (restore.1, restore.2 ++ [OsAct.deleteObject (s.saveBitMap.getD 0)])
      else (s.selectedPrev, ([] : List OsAct))
    (false, { s with selectedPrev := old.1 }, old.2)

/-- `PrintWindowScreencapper._capture_with_retry` (one capture attempt):
the inline double-checked bitmap (re)creation block — which in this class
can never succeed, see `pwEnsureBitmapResources` — then the capture
through the cached resources when no (re)creation was needed. -/
def pwCaptureAttempt (env : OsEnv) (s : GdiState) (w h : Int) :
    Option Shape × GdiState × List OsAct :=
  if s.saveBitMap.isNone || s.width != w || s.height != h then
    let e := pwEnsureBitmapResources s w h
    if !e.1 then (none, e.2.1, e.2.2)
    else
      let c := pwCaptureWindowToBitmap env e.2.1 w h e.2.1.hwndDC e.2.1.mfcDC
        e.2.1.saveBitMap e.2.1.buffer e.2.1.bmpinfoBuffer
      (c.1, c.2.1, e.2.2 ++ c.2.2)
  else
    let c := pwCaptureWindowToBitmap env s w h s.hwndDC s.mfcDC s.saveBitMap
      s.buffer s.bmpinfoBuffer
    (c.1, c.2.1, c.2.2)

/-- `PrintWindowScreencapper._capture_independent`: private DC pair, then
bitmap creation — but `self._create_bitmap_resources(width, height,
hwndDC)` (line 218) always raises `AttributeError` (the mixin holding it
is not inherited, see `pwEnsureBitmapResources`), so the capture step is
never reached; the handler returns `None` and the `finally` block
releases the private DCs. -/
def pwCaptureIndependent (env : OsEnv) (s : GdiState) (hwnd : Nat) (w h : Int) :
    Option Shape × GdiState × List OsAct :=
  let dc := env.getDC hwnd
  let t1 := [OsAct.getDC hwnd dc]
  if dc = 0 then (none, s, t1)
  else
    let mdc := env.createCompatibleDC dc
    let t2 := [OsAct.createDC dc mdc]
    if mdc = 0 then (none, s, t1 ++ t2 ++ [OsAct.releaseDC hwnd dc])
    else
      (none, s, t1 ++ t2 ++ [OsAct.deleteDC mdc, OsAct.releaseDC hwnd dc])

/-- `PrintWindowScreencapper.capture`: validate handle and rectangle,
dispatch to the independent path, otherwise initialize on demand, attempt
a capture, and on failure reinitialize (discarding and re-acquiring the
cached resources) and attempt exactly once more. -/
def pwCapture (env : OsEnv) (s : GdiState) (rect : Rect) (independent : Bool) :
    Option Shape × GdiState × List OsAct :=
  if env.hwnd = 0 then (none, s, [])
  else if rect.width ≤ 0 || rect.height ≤ 0 then (none, s, [])
  else if independent then pwCaptureIndependent env s env.hwnd rect.width rect.height
  else
    let step0 : Bool × GdiState × List OsAct :=
      if s.hwndDC.isNone || s.mfcDC.isNone then gdiInit env s else (true, s, [])
    if !step0.1 then (none, step0.2.1, step0.2.2)
    else
      let a1 := pwCaptureAttempt env step0.2.1 rect.width rect.height
      if a1.1.isSome then (a1.1, a1.2.1, step0.2.2 ++ a1.2.2)
      else
        let i2 := gdiInit env a1.2.1
        if !i2.1 then (none, i2.2.1, step0.2.2 ++ a1.2.2 ++ i2.2.2)
        else
          let a2 := pwCaptureAttempt env i2.2.1 rect.width rect.height
          (a2.1, a2.2.1, step0.2.2 ++ a1.2.2 ++ i2.2.2 ++ a2.2.2)

/-- Per-strategy resource state of the controller (`strategies` dict); the
PIL strategy holds no native resources. -/
structure CtrlState where
  bitblt : GdiState
  printWindow : GdiState
  active : Option String
deriving DecidableEq, Repr

/-- `PcScreenshotController.cleanup_resources`: call `cleanup()` on every
strategy (dict order `bitblt`, `print_window`, `pil`; the PIL cleanup is a
no-op) and clear the active strategy name. -/
def cleanupResources (c : CtrlState) : CtrlState × List OsAct :=
  let b := gdiCleanup c.bitblt
  let p := gdiCleanup c.printWindow
  ({ bitblt := b.1, printWindow := p.1, active := none }, b.2 ++ p.2)

/-- Specification-side description of the `init()` calls made by
`init_screenshot`: each candidate in order, stopping at the first
success. -/
def initCallsSpec (initOf : String → Bool) : List String → List AEvent
  | [] => []
  | n :: rest =>
    if initOf n then [AEvent.initCall n true]
    else AEvent.initCall n false :: initCallsSpec initOf rest

/-! ## Predicates over strategy states and traces -/

/-- OS actions that release a native handle. -/
def isReleaseAct : OsAct → Bool
  | OsAct.deleteObject _ => true
  | OsAct.deleteDC _ => true
  | OsAct.releaseDC _ _ => true
  | _ => false

/-- OS actions that acquire a native handle. -/
def isCreateAct : OsAct → Bool
  | OsAct.getDC _ _ => true
  | OsAct.createDC _ _ => true
  | OsAct.createDIB _ _ _ _ _ => true
  | _ => false

/-- Invocations of the `PrintWindow` paint primitive. -/
def isPwPrim : OsAct → Bool
  | OsAct.printWindowCall _ => true
  | _ => false

/-- Number of `PrintWindow` primitive invocations in a trace. -/
def countPW (t : List OsAct) : Nat := (t.filter isPwPrim).length

/-- Every handle acquired in the trace is also released in it: window DCs
via `ReleaseDC`, compatible DCs via `DeleteDC`, bitmaps via
`DeleteObject`. -/
def acquiredReleased (t : List OsAct) : Prop :=
  (∀ hw d, OsAct.getDC hw d ∈ t → d ≠ 0 → OsAct.releaseDC hw d ∈ t) ∧
  (∀ src d, OsAct.createDC src d ∈ t → d ≠ 0 → OsAct.deleteDC d ∈ t) ∧
  (∀ w h hdc hbm ptr, OsAct.createDIB w h hdc hbm ptr ∈ t → hbm ≠ 0 →
    OsAct.deleteObject hbm ∈ t)

/-- The cached fields named by the independent-isolation contract
(everything except the transient `_selected_prev` bookkeeping). -/
def cachedFieldsEq (a b : GdiState) : Prop :=
  a.hwndDC = b.hwndDC ∧ a.mfcDC = b.mfcDC ∧ a.saveBitMap = b.saveBitMap ∧
  a.buffer = b.buffer ∧ a.bmpinfoBuffer = b.bmpinfoBuffer ∧
  a.width = b.width ∧ a.height = b.height ∧ a.hwndForDc = b.hwndForDc

/-- All six resource fields absent. -/
def gdiAllAbsent (s : GdiState) : Prop :=
  s.hwndDC = none ∧ s.mfcDC = none ∧ s.saveBitMap = none ∧ s.buffer = none ∧
  s.bmpinfoBuffer = none ∧ s.hwndForDc = none

/-- All six resource fields present. -/
def gdiAllPresent (s : GdiState) : Prop :=
  s.hwndDC.isSome = true ∧ s.mfcDC.isSome = true ∧ s.saveBitMap.isSome = true ∧
  s.buffer.isSome = true ∧ s.bmpinfoBuffer.isSome = true ∧
  s.hwndForDc.isSome = true

/-- The all-or-nothing resource ownership asserted by the data-model
claim. -/
def gdiAllOrNothing (s : GdiState) : Prop := gdiAllAbsent s ∨ gdiAllPresent s

/-- The grouped resource invariant the code actually maintains: the DC
triple (`hwndDC`, `mfcDC`, `hwnd_for_dc`) is all-or-nothing, the bitmap
triple (`saveBitMap`, `buffer`, `bmpinfo_buffer`) is all-or-nothing, and a
bitmap is only ever held together with the DCs. -/
def resourceConsistent (s : GdiState) : Prop :=
  (s.hwndDC.isSome = s.mfcDC.isSome ∧ s.hwndDC.isSome = s.hwndForDc.isSome) ∧
  (s.saveBitMap.isSome = s.buffer.isSome ∧
   s.saveBitMap.isSome = s.bmpinfoBuffer.isSome) ∧
  (s.saveBitMap.isSome = true → s.hwndDC.isSome = true)

/-- Environment in which every WinAPI call succeeds but the `PrintWindow`
paint primitive reports failure; handles acquired by reinitialization are
distinct from the initially cached ones. -/
def envPwFail : OsEnv :=
  { hwnd := 5, getDC := fun _ => 11, createCompatibleDC := fun _ => 12,
    createDIBSection := fun _ _ _ => (13, 99), selectObject := fun _ _ => 7,
    printWindowOk := false, bitBltOk := true, getDIBitsLines := fun h => h,
    isWinScale := false, standardWidth := 1920, standardHeight := 1080 }

/-- Fully initialized cached state of a GDI strategy: DC pair (1, 2)
acquired from window 5 and a 4×2 bitmap with handle 3. -/
def sCached : GdiState :=
  { hwndDC := some 1, mfcDC := some 2, saveBitMap := some 3, buffer := some 32,
    bmpinfoBuffer := some ⟨4, -2⟩, width := 4, height := 2,
    hwndForDc := some 5, selectedPrev := none }

/-! ### Controller-level lemmas -/

theorem mem_methodPriorityList {m n : String} (h : n ∈ methodPriorityList m) :
    n = "bitblt" ∨ n = "print_window" ∨ n = "pil" := by
  unfold methodPriorityList at h
  split_ifs at h <;> simp only [List.mem_cons, List.mem_singleton,
    List.not_mem_nil, or_false] at h <;> tauto

theorem contains_of_mem_methodPriorityList {m n : String}
    (h : n ∈ methodPriorityList m) : strategyNames.contains n = true := by
  rcases mem_methodPriorityList h with h | h | h <;> subst h <;> decide

/-- On a list whose members are all known strategies, the init loop returns
the first name accepted by `initOf` and records one `initCall` per
candidate tried. -/
theorem initLoop_known (initOf : String → Bool) :
    ∀ l : List String, (∀ n ∈ l, strategyNames.contains n = true) →
      (initLoop initOf l).1 = l.find? initOf ∧
      (initLoop initOf l).2 = initCallsSpec initOf l := by
  intro l
  induction l with
  | nil => intro _; exact ⟨rfl, rfl⟩
  | cons n rest ih =>
    intro hmem
    have hn : strategyNames.contains n = true := hmem n (by simp)
    have hn' : n ∈ strategyNames := by simpa using hn
    have hrest := ih (fun x hx => hmem x (by simp [hx]))
    by_cases hi : initOf n
    · simp [initLoop, initCallsSpec, hn', hi, List.find?]
    · simp only [Bool.not_eq_true] at hi
      simp [initLoop, initCallsSpec, hn', hi, List.find?, hrest.1, hrest.2]

theorem methodPriorityList_all_known (m : String) :
    ∀ n ∈ methodPriorityList m, strategyNames.contains n = true :=
  fun _ h => contains_of_mem_methodPriorityList h

theorem methodPriorityList_self_head {n : String}
    (h : n = "bitblt" ∨ n = "print_window" ∨ n = "pil") :
    (methodPriorityList n).head? = some n := by
  rcases h with h | h | h <;> subst h <;> decide

/-- If every name in the prefix `l1` fails to capture and `B` (a known
strategy) succeeds, the capture loop returns `B`'s image and promotes `B`
when the call is not independent. -/
theorem tryCapture_first_success (capOf : String → Option Shape)
    (active : Option String) (B : String) (img : Shape) (l2 : List String)
    (hB : capOf B = some img) (hBknown : strategyNames.contains B = true) :
    ∀ l1 : List String, (∀ n ∈ l1, capOf n = none) →
      (tryCapture capOf active false (l1 ++ B :: l2)).1 = some img ∧
      (tryCapture capOf active false (l1 ++ B :: l2)).2.1 =
        (if active != some B then some B else active) := by
  intro l1
  induction l1 with
  | nil =>
    intro _
    have hB' : B ∈ strategyNames := by simpa using hBknown
    simp [tryCapture, hB', hB]
  | cons n rest ih =>
    intro hfail
    have hn : capOf n = none := hfail n (by simp)
    have hrest := ih (fun x hx => hfail x (by simp [hx]))
    by_cases hk : n ∈ strategyNames
    · simp [tryCapture, hk, hn, hrest.1, hrest.2]
    · have hk' : ¬(strategyNames.contains n = true) := by simpa using hk
      simp only [List.cons_append, tryCapture, if_neg hk']
      exact hrest

/-- In independent mode the capture loop never reassigns the active
strategy name. -/
theorem tryCapture_independent_active (capOf : String → Option Shape)
    (active : Option String) :
    ∀ l : List String, (tryCapture capOf active true l).2.1 = active := by
  intro l
  induction l with
  | nil => rfl
  | cons n rest ih =>
    by_cases hk : n ∈ strategyNames
    · cases hcap : capOf n <;> simp [tryCapture, hk, hcap, ih]
    · simpa [tryCapture, hk] using ih

/-- When every candidate's `capture()` fails, the capture loop returns
null and leaves the active strategy name unchanged. -/
theorem tryCapture_all_fail (capOf : String → Option Shape)
    (active : Option String) (independent : Bool) :
    ∀ l : List String, (∀ n ∈ l, capOf n = none) →
      (tryCapture capOf active independent l).1 = none ∧
      (tryCapture capOf active independent l).2.1 = active := by
  intro l
  induction l with
  | nil => intro _; exact ⟨rfl, rfl⟩
  | cons n rest ih =>
    intro hf
    have hn : capOf n = none := hf n (by simp)
    have hr := ih (fun x hx => hf x (by simp [hx]))
    by_cases hk : n ∈ strategyNames
    · simp [tryCapture, hk, hn, hr.1, hr.2]
    · have hk' : ¬(strategyNames.contains n = true) := by simpa using hk
      simp only [tryCapture, if_neg hk']
      exact hr

/-! ## Claim theorems at the controller level -/

/-- C1: `init_screenshot(m)` first cleans up every strategy (and with it the
active name), then calls `init()` on each candidate of the fallback table's
list for `m` in order (`m` itself first when `m` is a known name, otherwise
the hard-coded default order `bitblt, print_window, pil`); the first
candidate whose `init()` returns true becomes the active strategy and its
name is returned; if every candidate's `init()` returns false, `None` is
returned and the active strategy stays `None`. -/
theorem claim_C1_init_fallback (initOf : String → Bool) (active : Option String)
    (m : String) :
    (init_screenshot initOf active m).1 = (methodPriorityList m).find? initOf ∧
    (init_screenshot initOf active m).2.1 = (methodPriorityList m).find? initOf ∧
    (init_screenshot initOf active m).2.2 =
      strategyNames.map AEvent.cleanupStrategy ++
        initCallsSpec initOf (methodPriorityList m) ∧
    ((m = "bitblt" ∨ m = "print_window" ∨ m = "pil") →
      (methodPriorityList m).head? = some m) ∧
    (¬(m = "bitblt" ∨ m = "print_window" ∨ m = "pil") →
      methodPriorityList m = ["bitblt", "print_window", "pil"]) := by
  have h := initLoop_known initOf (methodPriorityList m)
    (methodPriorityList_all_known m)
  refine ⟨by simp [init_screenshot, h.1], by simp [init_screenshot, h.1],
    by simp [init_screenshot, h.2], methodPriorityList_self_head, ?_⟩
  intro hm
  push_neg at hm
  simp [methodPriorityList, hm.1, hm.2.1, hm.2.2]

/-- C1 witness: a concrete run in which the preferred strategy fails and
the controller falls back to the next candidate. -/
theorem claim_C1_init_fallback_witness :
    (methodPriorityList "print_window").head? = some "print_window" ∧
    (init_screenshot (fun n => n = "pil") none "print_window").1 = some "pil" := by
  constructor
  · exact (claim_C1_init_fallback (fun n => n = "pil") none "print_window").2.2.2.1
      (Or.inr (Or.inl rfl))
  · rw [(claim_C1_init_fallback (fun n => n = "pil") none "print_window").1]
    decide

/-- C2: in state `Active(A)` (with a window rectangle available), a
non-independent `get_screenshot` call tries strategies in `A`-first
fallback order: when `A`'s `capture()` fails and `B` is the first later
candidate whose `capture()` succeeds, the call returns `B`'s image and
promotes `B` to active, and the priority list for `B` starts with `B`, so
the next non-independent call tries `B` first; and when every candidate's
`capture()` fails, the call returns null (the active name untouched). -/
theorem claim_C2_self_healing (capOf : String → Option Shape) (A : String)
    (rect : Rect) (hAne : A ≠ "") :
    (∀ B img l1 l2,
      methodPriorityList A = l1 ++ B :: l2 →
      capOf A = none →
      (∀ n ∈ l1, capOf n = none) →
      capOf B = some img →
      (get_screenshot capOf (some A) (some rect) false).1 = some img ∧
      (get_screenshot capOf (some A) (some rect) false).2.1 = some B ∧
      (methodPriorityList B).head? = some B) ∧
    ((∀ n ∈ methodPriorityList A, capOf n = none) →
      (get_screenshot capOf (some A) (some rect) false).1 = none ∧
      (get_screenshot capOf (some A) (some rect) false).2.1 = some A) := by
  have hAtruthy : activeTruthy (some A) = true := by
    have : A.isEmpty = false := by
      rw [Bool.eq_false_iff]
      intro h
      exact hAne ((String.isEmpty_iff A).mp h)
    simp [activeTruthy, this]
  constructor
  · intro B img l1 l2 hsplit hA hl1 hB
    have hBmem : B ∈ methodPriorityList A := by simp [hsplit]
    have hBknown := contains_of_mem_methodPriorityList hBmem
    have hAB : A ≠ B := by
      intro h; rw [h, hB] at hA; exact Option.noConfusion hA
    have hmain := tryCapture_first_success capOf (some A) B img l2 hB hBknown l1 hl1
    have hne : ((some A : Option String) != some B) = true := by
      simp [bne_iff_ne, hAB]
    refine ⟨?_, ?_, ?_⟩
    · simpa [get_screenshot, hAtruthy, Option.getD, hsplit] using hmain.1
    · have h2 := hmain.2
      rw [hne] at h2
      simpa [get_screenshot, hAtruthy, Option.getD, hsplit] using h2
    · exact methodPriorityList_self_head (mem_methodPriorityList hBmem)
  · intro hfail
    have h := tryCapture_all_fail capOf (some A) false (methodPriorityList A)
      hfail
    exact ⟨by simpa [get_screenshot, hAtruthy, Option.getD] using h.1,
           by simpa [get_screenshot, hAtruthy, Option.getD] using h.2⟩

/-- C2 witness: with `bitblt` active but failing and `print_window`
succeeding, one call returns `print_window`'s image and promotes it; with
every strategy failing, the call returns null. -/
theorem claim_C2_self_healing_witness :
    (get_screenshot
        (fun n => if n = "print_window" then some ⟨1080, 1920, 3⟩ else none)
        (some "bitblt") (some ⟨0, 0, 1920, 1080⟩) false).1 =
      some ⟨1080, 1920, 3⟩ ∧
    (get_screenshot
        (fun n => if n = "print_window" then some ⟨1080, 1920, 3⟩ else none)
        (some "bitblt") (some ⟨0, 0, 1920, 1080⟩) false).2.1 =
      some "print_window" ∧
    (get_screenshot (fun _ => none) (some "bitblt")
        (some ⟨0, 0, 1920, 1080⟩) false).1 = none := by
  have h1 := (claim_C2_self_healing
    (fun n => if n = "print_window" then some ⟨1080, 1920, 3⟩ else none)
    "bitblt" ⟨0, 0, 1920, 1080⟩ (by decide)).1 "print_window"
    ⟨1080, 1920, 3⟩ ["bitblt"] ["pil"] (by decide) (by decide)
    (by intro n hn; fin_cases hn; decide) (by decide)
  have h2 := (claim_C2_self_healing (fun _ => none) "bitblt"
    ⟨0, 0, 1920, 1080⟩ (by decide)).2 (fun n _ => rfl)
  exact ⟨h1.1, h1.2.1, h2.1⟩

/-- C5: in the Uninitialized state (active strategy name `None`), a
non-independent `get_screenshot` call returns `None` immediately: no
strategy's `capture()` is invoked (the event list is empty) and the active
name is unchanged.  This covers both the never-initialized state and the
state left by an `init_screenshot` in which every strategy failed, since
that also leaves the active name `None` (see C1). -/
theorem claim_C5_uninitialized_fails_fast (capOf : String → Option Shape)
    (rect : Option Rect) :
    get_screenshot capOf none rect false = (none, none, []) := by
  simp [get_screenshot, activeTruthy]

/-- C10: `PilScreencapper.init` returns true unconditionally, `"pil"`
appears in every priority list the controller can build, and therefore
`init_screenshot(m)` returns a strategy name (not `None`) for every method
name `m` and every behaviour of the other strategies. -/
theorem claim_C10_pil_always_inits (e : String → Bool) (active : Option String)
    (m : String) :
    pilInit = true ∧
    "pil" ∈ methodPriorityList m ∧
    (init_screenshot (fun n => if n = "pil" then pilInit else e n) active m).1.isSome := by
  have hpil : "pil" ∈ methodPriorityList m := by
    unfold methodPriorityList
    split_ifs <;> decide
  refine ⟨rfl, hpil, ?_⟩
  have h := (initLoop_known (fun n => if n = "pil" then pilInit else e n)
    (methodPriorityList m) (methodPriorityList_all_known m)).1
  have : ((methodPriorityList m).find?
      (fun n => if n = "pil" then pilInit else e n)).isSome := by
    rw [List.find?_isSome]
    exact ⟨"pil", hpil, by simp [pilInit]⟩
  simpa [init_screenshot, h] using this

/-! ### Strategy-level lemmas -/

/-- `cleanup` clears every resource field of the state it returns. -/
theorem gdiCleanup_cleared (s : GdiState) :
    (gdiCleanup s).1.hwndDC = none ∧ (gdiCleanup s).1.mfcDC = none ∧
    (gdiCleanup s).1.saveBitMap = none ∧ (gdiCleanup s).1.buffer = none ∧
    (gdiCleanup s).1.bmpinfoBuffer = none ∧ (gdiCleanup s).1.width = 0 ∧
    (gdiCleanup s).1.height = 0 ∧ (gdiCleanup s).1.hwndForDc = none := by
  unfold gdiCleanup
  split <;> simp

/-- On a state whose resource fields are already cleared, `cleanup` does
nothing: the state is returned unchanged and no OS call is made. -/
theorem gdiCleanup_of_cleared (s : GdiState) (h1 : s.hwndDC = none)
    (h2 : s.mfcDC = none) (h3 : s.saveBitMap = none) (h4 : s.buffer = none)
    (h5 : s.bmpinfoBuffer = none) (h6 : s.width = 0) (h7 : s.height = 0)
    (h8 : s.hwndForDc = none) : gdiCleanup s = (s, []) := by
  cases s
  simp_all [gdiCleanup, optTruthy]

/-- `cleanup` is idempotent and its second run performs no OS call. -/
theorem gdiCleanup_idem (s : GdiState) :
    gdiCleanup (gdiCleanup s).1 = ((gdiCleanup s).1, []) := by
  obtain ⟨h1, h2, h3, h4, h5, h6, h7, h8⟩ := gdiCleanup_cleared s
  exact gdiCleanup_of_cleared _ h1 h2 h3 h4 h5 h6 h7 h8

/-- A successful `init()` stores both device contexts and the window
handle, while the bitmap triple stays absent (it is created lazily at the
first capture). -/
theorem gdiInit_success_state (env : OsEnv) (s : GdiState)
    (h : (gdiInit env s).1 = true) :
    (gdiInit env s).2.1.hwndDC.isSome = true ∧
    (gdiInit env s).2.1.mfcDC.isSome = true ∧
    (gdiInit env s).2.1.hwndForDc.isSome = true ∧
    (gdiInit env s).2.1.saveBitMap = none ∧
    (gdiInit env s).2.1.buffer = none ∧
    (gdiInit env s).2.1.bmpinfoBuffer = none := by
  obtain ⟨h1, h2, h3, h4, h5, h6, h7, h8⟩ := gdiCleanup_cleared s
  unfold gdiInit at h ⊢
  by_cases e0 : env.hwnd = 0
  · simp [e0] at h
  · by_cases e1 : env.getDC env.hwnd = 0
    · simp [e0, e1] at h
    · by_cases e2 : env.createCompatibleDC (env.getDC env.hwnd) = 0
      · simp [e0, e1, e2] at h
      · simp [e0, e1, e2, h3, h4, h5]

theorem countPW_append (t1 t2 : List OsAct) :
    countPW (t1 ++ t2) = countPW t1 + countPW t2 := by
  simp [countPW, List.filter_append]

theorem countPW_nil : countPW [] = 0 := rfl

theorem countPW_cons (a : OsAct) (t : List OsAct) :
    countPW (a :: t) = (if isPwPrim a then 1 else 0) + countPW t := by
  by_cases h : isPwPrim a <;>
    simp [countPW, List.filter_cons, h, Nat.add_comm]

theorem countPW_gdiCleanup (s : GdiState) : countPW (gdiCleanup s).2 = 0 := by
  unfold gdiCleanup
  split_ifs <;> simp [countPW, isPwPrim]

theorem countPW_createBitmapResources (env : OsEnv) (w h : Int)
    (hdc : Option Nat) : countPW (createBitmapResources env w h hdc).2 = 0 := by
  unfold createBitmapResources
  by_cases h1 : (env.createDIBSection w h
      (if optTruthy hdc then hdc.getD 0 else 0)).1 = 0
  · simp [h1, countPW, isPwPrim]
  · by_cases h2 : (env.createDIBSection w h
        (if optTruthy hdc then hdc.getD 0 else 0)).2 = 0 <;>
      simp [h1, h2, countPW, isPwPrim]

theorem countPW_ensureBitmapResources (env : OsEnv) (s : GdiState) (w h : Int)
    (hdc : Option Nat) : countPW (ensureBitmapResources env s w h hdc).2.2 = 0 := by
  have hc := countPW_createBitmapResources env w h hdc
  unfold ensureBitmapResources
  rcases hcr : createBitmapResources env w h hdc with ⟨r, t2⟩
  rw [hcr] at hc
  have hc2 : countPW t2 = 0 := hc
  cases r <;> split_ifs <;>
    simp [countPW_append, countPW_cons, countPW_nil, hc2, isPwPrim]

theorem countPW_gdiInit (env : OsEnv) (s : GdiState) :
    countPW (gdiInit env s).2.2 = 0 := by
  unfold gdiInit
  by_cases h1 : env.hwnd = 0 <;>
    by_cases h2 : env.getDC env.hwnd = 0 <;>
      by_cases h3 : env.createCompatibleDC (env.getDC env.hwnd) = 0 <;>
        simp [h1, h2, h3, countPW_append, countPW_cons, countPW_nil,
          countPW_gdiCleanup, isPwPrim]

theorem countPW_pwCaptureWindowToBitmap (env : OsEnv) (s : GdiState)
    (w h : Int) (a b c : Option Nat) (buf : Option Int) (bmi : Option BmpInfo) :
    countPW (pwCaptureWindowToBitmap env s w h a b c buf bmi).2.2 ≤ 1 := by
  unfold pwCaptureWindowToBitmap
  by_cases hL : env.getDIBitsLines h = h <;>
    split_ifs <;>
      simp [hL, countPW_append, countPW_cons, countPW_nil, isPwPrim]

theorem countPW_pwEnsureBitmapResources (s : GdiState) (w h : Int) :
    countPW (pwEnsureBitmapResources s w h).2.2 = 0 := by
  unfold pwEnsureBitmapResources
  split_ifs <;> simp [countPW_append, countPW_cons, countPW_nil, isPwPrim]

/-- The bitmap (re)creation block of `_capture_with_retry` always reports
failure: `_create_bitmap_resources` is not an attribute of
`PrintWindowScreencapper`. -/
theorem pwEnsureBitmapResources_fail (s : GdiState) (w h : Int)
    (hn : (s.saveBitMap.isNone || s.width != w || s.height != h) = true) :
    (pwEnsureBitmapResources s w h).1 = false := by
  unfold pwEnsureBitmapResources
  simp [hn]

theorem countPW_pwCaptureAttempt (env : OsEnv) (s : GdiState) (w h : Int) :
    countPW (pwCaptureAttempt env s w h).2.2 ≤ 1 := by
  unfold pwCaptureAttempt
  by_cases hn : (s.saveBitMap.isNone || s.width != w || s.height != h) = true
  · have hE := pwEnsureBitmapResources_fail s w h hn
    simp [hn, hE, countPW_pwEnsureBitmapResources]
  · simpa [hn] using countPW_pwCaptureWindowToBitmap env s w h s.hwndDC
      s.mfcDC s.saveBitMap s.buffer s.bmpinfoBuffer

/-- A capture attempt on a state with no cached bitmap never reaches the
paint primitive: bitmap (re)creation fails first. -/
theorem countPW_pwCaptureAttempt_of_bitmapless (env : OsEnv) (s : GdiState)
    (w h : Int) (hbm : s.saveBitMap = none) :
    countPW (pwCaptureAttempt env s w h).2.2 = 0 := by
  have hn : (s.saveBitMap.isNone || s.width != w || s.height != h) = true := by
    simp [hbm]
  have hE := pwEnsureBitmapResources_fail s w h hn
  unfold pwCaptureAttempt
  simp [hn, hE, countPW_pwEnsureBitmapResources]

/-- A non-independent PrintWindow `capture()` invokes the paint primitive
at most once: the retry after reinitialization starts from a bitmapless
state, and in this class bitmap (re)creation always fails before the
primitive can run. -/
theorem countPW_pwCapture (env : OsEnv) (s : GdiState) (rect : Rect) :
    countPW (pwCapture env s rect false).2.2 ≤ 1 := by
  unfold pwCapture
  by_cases h0 : env.hwnd = 0
  · simp [h0, countPW_nil]
  · by_cases hr : (decide (rect.width ≤ 0) || decide (rect.height ≤ 0)) = true
    · simp [h0, hr, countPW_nil]
    · by_cases hD : (s.hwndDC.isNone || s.mfcDC.isNone) = true
      · cases hI : (gdiInit env s).1
        · simp [h0, hr, hD, hI, countPW_gdiInit]
        · have hA1 : countPW (pwCaptureAttempt env (gdiInit env s).2.1
              rect.width rect.height).2.2 = 0 :=
            countPW_pwCaptureAttempt_of_bitmapless env _ _ _
              (gdiInit_success_state env s hI).2.2.2.1
          cases hS : (pwCaptureAttempt env (gdiInit env s).2.1 rect.width
              rect.height).1.isSome
          · cases hI2 : (gdiInit env (pwCaptureAttempt env (gdiInit env s).2.1
                rect.width rect.height).2.1).1
            · simp [h0, hr, hD, hI, hS, hI2, countPW_append,
                countPW_gdiInit, hA1]
            · have hA2 : countPW (pwCaptureAttempt env
                  (gdiInit env (pwCaptureAttempt env (gdiInit env s).2.1
                    rect.width rect.height).2.1).2.1 rect.width
                  rect.height).2.2 = 0 :=
                countPW_pwCaptureAttempt_of_bitmapless env _ _ _
                  (gdiInit_success_state env _ hI2).2.2.2.1
              simp [h0, hr, hD, hI, hS, hI2, countPW_append,
                countPW_gdiInit, hA1, hA2]
          · simp [h0, hr, hD, hI, hS, countPW_append, countPW_gdiInit, hA1]
      · have hB := countPW_pwCaptureAttempt env s rect.width rect.height
        cases hS : (pwCaptureAttempt env s rect.width rect.height).1.isSome
        · cases hI2 : (gdiInit env (pwCaptureAttempt env s rect.width
              rect.height).2.1).1
          · simp [h0, hr, hD, hS, hI2, countPW_append, countPW_gdiInit]
            omega
          · have hA2 : countPW (pwCaptureAttempt env
                (gdiInit env (pwCaptureAttempt env s rect.width
                  rect.height).2.1).2.1 rect.width rect.height).2.2 = 0 :=
              countPW_pwCaptureAttempt_of_bitmapless env _ _ _
                (gdiInit_success_state env _ hI2).2.2.2.1
            simp [h0, hr, hD, hS, hI2, countPW_append, countPW_gdiInit, hA2]
            omega
        · simp [h0, hr, hD, hS, countPW_append, countPW_gdiInit]
          omega

/-- Resource acquisitions or releases, as a single Boolean test. -/
def isRelOrCre (x : OsAct) : Bool := isReleaseAct x || isCreateAct x

theorem forall_false_of_filter_nil {p : OsAct → Bool} {t : List OsAct}
    (h : t.filter p = []) : ∀ x ∈ t, p x = false := by
  intro x hx
  rcases List.filter_eq_nil_iff.mp h x hx with h2
  simpa using h2

/-- The cached-capture helper performs no resource acquisition or release:
its trace consists of object selections, one paint/copy primitive and one
row read-back. -/
theorem captureBitmapToImage_trace_ops (env : OsEnv) (w h : Int)
    (a b c : Option Nat) (buf : Option Int) (bmi : Option BmpInfo) (upw : Bool) :
    ((captureBitmapToImage env w h a b c buf bmi upw).2.filter isRelOrCre) = [] := by
  cases upw <;>
    cases hA : (optTruthy a && optTruthy b && optTruthy c && bufTruthy buf &&
      bmi.isSome) <;>
    cases hP : env.printWindowOk <;>
    cases hB : env.bitBltOk <;>
    rcases eq_or_ne (env.getDIBitsLines h) h with hL | hL <;>
    rcases eq_or_ne (buf.getD 0) (w * h * 4) with hBuf | hBuf <;>
    simp [captureBitmapToImage, hA, hP, hB, hL, hBuf, List.filter_append,
      isRelOrCre, isReleaseAct, isCreateAct]

/-- With a failing copy primitive the cached-capture helper returns
null. -/
theorem captureBitmapToImage_bitblt_fail (env : OsEnv) (w h : Int)
    (a b c : Option Nat) (buf : Option Int) (bmi : Option BmpInfo)
    (hprim : env.bitBltOk = false) :
    (captureBitmapToImage env w h a b c buf bmi false).1 = none := by
  cases hA : (optTruthy a && optTruthy b && optTruthy c && bufTruthy buf &&
      bmi.isSome) <;>
    simp [captureBitmapToImage, hA, hprim]

theorem resourceConsistent_of_cachedFieldsEq {a b : GdiState}
    (h : cachedFieldsEq a b) (hb : resourceConsistent b) :
    resourceConsistent a := by
  obtain ⟨h1, h2, h3, h4, h5, h6, h7, h8⟩ := h
  unfold resourceConsistent at *
  rw [h1, h2, h3, h4, h5, h8]
  exact hb

theorem resourceConsistent_gdiCleanup (s : GdiState) :
    resourceConsistent (gdiCleanup s).1 := by
  obtain ⟨h1, h2, h3, h4, h5, _, _, h8⟩ := gdiCleanup_cleared s
  simp [resourceConsistent, h1, h2, h3, h4, h5, h8]

theorem resourceConsistent_gdiInit (env : OsEnv) (s : GdiState) :
    resourceConsistent (gdiInit env s).2.1 := by
  obtain ⟨h1, h2, h3, h4, h5, h6, h7, h8⟩ := gdiCleanup_cleared s
  unfold gdiInit
  by_cases e0 : env.hwnd = 0
  · simp only [e0, if_true]
    exact resourceConsistent_gdiCleanup _
  · by_cases e1 : env.getDC env.hwnd = 0
    · simp only [e0, e1, if_true, if_false]
      exact resourceConsistent_gdiCleanup _
    · by_cases e2 : env.createCompatibleDC (env.getDC env.hwnd) = 0
      · simp only [e0, e1, e2, if_true, if_false]
        exact resourceConsistent_gdiCleanup _
      · simp [e0, e1, e2, resourceConsistent, h3, h4, h5]

theorem resourceConsistent_ensure (env : OsEnv) (s : GdiState) (w h : Int)
    (hdcC : Option Nat) (hc : resourceConsistent s)
    (hdc : s.hwndDC.isSome = true) :
    resourceConsistent (ensureBitmapResources env s w h hdcC).2.1 := by
  obtain ⟨⟨hc1, hc2⟩, ⟨hc3, hc4⟩, hc5⟩ := hc
  unfold ensureBitmapResources
  by_cases hn : (s.saveBitMap.isNone || s.width != w || s.height != h) = true
  · rcases hcr : createBitmapResources env w h hdcC with ⟨r, t2⟩
    cases r with
    | none =>
        simp [hn, hcr, resourceConsistent, hc1, hc2, hc3, hc4, hc5, hdc]
        exact ⟨by rw [← hc1]; exact hc2, by rw [← hc3]; exact hc4,
          fun _ => by rw [← hc1]; exact hdc⟩
    | some r =>
        simp [hn, hcr, resourceConsistent, hc1, hc2, hc3, hc4, hc5, hdc]
        exact ⟨by rw [← hc1]; exact hc2, by rw [← hc1]; exact hdc⟩
  · simp only [hn, Bool.not_true, Bool.not_false, if_true, if_false,
      Bool.false_eq_true]
    exact ⟨⟨hc1, hc2⟩, ⟨hc3, hc4⟩, hc5⟩

theorem resourceConsistent_tryCaptureOnce (env : OsEnv) (s : GdiState)
    (w h : Int) (upw : Bool) (hc : resourceConsistent s)
    (hdc : s.hwndDC.isSome = true) :
    resourceConsistent (tryCaptureOnce env s w h upw).2.1 := by
  unfold tryCaptureOnce
  by_cases hn : (s.saveBitMap.isNone || s.width != w || s.height != h) = true
  · cases hE : (ensureBitmapResources env s w h none).1 <;>
      simp only [hn, hE, if_true, if_false, Bool.not_true, Bool.not_false,
        Bool.false_eq_true, Bool.true_eq_false] <;>
      exact resourceConsistent_ensure env s w h none hc hdc
  · simp only [hn, if_false, Bool.false_eq_true]
    exact hc

theorem resourceConsistent_captureCommon (env : OsEnv) (s : GdiState)
    (rect : Rect) (indep upw retry : Bool) (hc : resourceConsistent s) :
    resourceConsistent (captureCommon env s rect indep upw retry).2.1 := by
  unfold captureCommon
  by_cases h0 : env.hwnd = 0
  · simpa [h0] using hc
  · by_cases hr : (decide (rect.width ≤ 0) || decide (rect.height ≤ 0)) = true
    · simpa [h0, hr] using hc
    · cases hi : indep with
      | true => simpa [h0, hr] using hc
      | false =>
        by_cases hD : (s.hwndDC.isNone || s.mfcDC.isNone) = true
        · cases hI : (gdiInit env s).1
          · simpa [h0, hr, hD, hI] using resourceConsistent_gdiInit env s
          · have hc0 := resourceConsistent_gdiInit env s
            have hd0 := (gdiInit_success_state env s hI).1
            have hA := resourceConsistent_tryCaptureOnce env
              (gdiInit env s).2.1 rect.width rect.height upw hc0 hd0
            cases hS : (tryCaptureOnce env (gdiInit env s).2.1 rect.width
                rect.height upw).1.isSome
            · cases hretry : retry
              · simpa [h0, hr, hD, hI, hS, hretry] using hA
              · cases hI2 : (gdiInit env (tryCaptureOnce env
                    (gdiInit env s).2.1 rect.width rect.height upw).2.1).1
                · simpa [h0, hr, hD, hI, hS, hretry, hI2] using
                    resourceConsistent_gdiInit env _
                · have hcI := resourceConsistent_gdiInit env
                    (tryCaptureOnce env (gdiInit env s).2.1 rect.width
                      rect.height upw).2.1
                  have hdI := (gdiInit_success_state env _ hI2).1
                  simpa [h0, hr, hD, hI, hS, hretry, hI2] using
                    resourceConsistent_tryCaptureOnce env _ rect.width
                      rect.height upw hcI hdI
            · simpa [h0, hr, hD, hI, hS] using hA
        · have hdcS : s.hwndDC.isSome = true := by
            cases hx : s.hwndDC <;> simp_all
          have hA := resourceConsistent_tryCaptureOnce env s rect.width
            rect.height upw hc hdcS
          cases hS : (tryCaptureOnce env s rect.width rect.height upw).1.isSome
          · cases hretry : retry
            · simpa [h0, hr, hD, hS, hretry] using hA
            · cases hI2 : (gdiInit env (tryCaptureOnce env s rect.width
                  rect.height upw).2.1).1
              · simpa [h0, hr, hD, hS, hretry, hI2] using
                  resourceConsistent_gdiInit env _
              · have hcI := resourceConsistent_gdiInit env
                  (tryCaptureOnce env s rect.width rect.height upw).2.1
                have hdI := (gdiInit_success_state env _ hI2).1
                simpa [h0, hr, hD, hS, hretry, hI2] using
                  resourceConsistent_tryCaptureOnce env _ rect.width
                    rect.height upw hcI hdI
          · simpa [h0, hr, hD, hS] using hA

/-- The PrintWindow capture helper never touches the cached resource
fields; only `_selected_prev` changes. -/
theorem pwCaptureWindowToBitmap_fields (env : OsEnv) (s : GdiState)
    (w h : Int) (a b c : Option Nat) (buf : Option Int)
    (bmi : Option BmpInfo) :
    cachedFieldsEq (pwCaptureWindowToBitmap env s w h a b c buf bmi).2.1 s := by
  unfold pwCaptureWindowToBitmap cachedFieldsEq
  cases hA : (optTruthy a && optTruthy b && optTruthy c && bufTruthy buf &&
      bmi.isSome) <;>
    cases hP : env.printWindowOk <;>
    rcases eq_or_ne (env.getDIBitsLines h) h with hL | hL <;>
    rcases eq_or_ne (buf.getD 0) (w * h * 4) with hBuf | hBuf <;>
    simp [hA, hP, hL, hBuf]

theorem resourceConsistent_pwEnsure (s : GdiState) (w h : Int)
    (hc : resourceConsistent s) :
    resourceConsistent (pwEnsureBitmapResources s w h).2.1 := by
  unfold pwEnsureBitmapResources
  split_ifs <;> exact hc

theorem resourceConsistent_pwCaptureAttempt (env : OsEnv) (s : GdiState)
    (w h : Int) (hc : resourceConsistent s) (hdc : s.hwndDC.isSome = true) :
    resourceConsistent (pwCaptureAttempt env s w h).2.1 := by
  unfold pwCaptureAttempt
  by_cases hn : (s.saveBitMap.isNone || s.width != w || s.height != h) = true
  · have hE := pwEnsureBitmapResources_fail s w h hn
    simp only [hn, hE, Bool.not_false, if_true]
    exact resourceConsistent_pwEnsure s w h hc
  · simp only [hn, if_false, Bool.false_eq_true]
    exact resourceConsistent_of_cachedFieldsEq
      (pwCaptureWindowToBitmap_fields env _ w h _ _ _ _ _) hc

theorem resourceConsistent_pwCapture (env : OsEnv) (s : GdiState)
    (rect : Rect) (indep : Bool) (hc : resourceConsistent s) :
    resourceConsistent (pwCapture env s rect indep).2.1 := by
  unfold pwCapture
  by_cases h0 : env.hwnd = 0
  · simpa [h0] using hc
  · by_cases hr : (decide (rect.width ≤ 0) || decide (rect.height ≤ 0)) = true
    · simpa [h0, hr] using hc
    · cases hi : indep with
      | true =>
        unfold pwCaptureIndependent
        by_cases e1 : env.getDC env.hwnd = 0
        · simpa [h0, hr, e1] using hc
        · by_cases e2 : env.createCompatibleDC (env.getDC env.hwnd) = 0 <;>
            simpa [h0, hr, e1, e2] using hc
      | false =>
        by_cases hD : (s.hwndDC.isNone || s.mfcDC.isNone) = true
        all_goals
          first
          | (cases hI : (gdiInit env s).1
             · simpa [h0, hr, hD, hI] using resourceConsistent_gdiInit env s
             · have hc0 := resourceConsistent_gdiInit env s
               have hd0 := (gdiInit_success_state env s hI).1
               have hA := resourceConsistent_pwCaptureAttempt env
                 (gdiInit env s).2.1 rect.width rect.height hc0 hd0
               cases hS : (pwCaptureAttempt env (gdiInit env s).2.1
                   rect.width rect.height).1.isSome
               · cases hI2 : (gdiInit env (pwCaptureAttempt env
                     (gdiInit env s).2.1 rect.width rect.height).2.1).1
                 · simpa [h0, hr, hD, hI, hS, hI2] using
                     resourceConsistent_gdiInit env _
                 · have hcI := resourceConsistent_gdiInit env
                     (pwCaptureAttempt env (gdiInit env s).2.1 rect.width
                       rect.height).2.1
                   have hdI := (gdiInit_success_state env _ hI2).1
                   simpa [h0, hr, hD, hI, hS, hI2] using
                     resourceConsistent_pwCaptureAttempt env _ rect.width
                       rect.height hcI hdI
               · simpa [h0, hr, hD, hI, hS] using hA)
          | (have hdcS : s.hwndDC.isSome = true := by
               cases hx : s.hwndDC <;> simp_all
             have hA := resourceConsistent_pwCaptureAttempt env s rect.width
               rect.height hc hdcS
             cases hS : (pwCaptureAttempt env s rect.width
                 rect.height).1.isSome
             · cases hI2 : (gdiInit env (pwCaptureAttempt env s rect.width
                   rect.height).2.1).1
               · simpa [h0, hr, hD, hS, hI2] using
                   resourceConsistent_gdiInit env _
               · have hcI := resourceConsistent_gdiInit env
                   (pwCaptureAttempt env s rect.width rect.height).2.1
                 have hdI := (gdiInit_success_state env _ hI2).1
                 simpa [h0, hr, hD, hS, hI2] using
                   resourceConsistent_pwCaptureAttempt env _ rect.width
                     rect.height hcI hdI
             · simpa [h0, hr, hD, hS] using hA)

theorem cachedFieldsEq_refl (s : GdiState) : cachedFieldsEq s s :=
  ⟨rfl, rfl, rfl, rfl, rfl, rfl, rfl, rfl⟩

/-- Window-DC and compatible-DC acquisitions, as a Boolean test. -/
def isDcCreate : OsAct → Bool
  | OsAct.getDC _ _ => true
  | OsAct.createDC _ _ => true
  | _ => false

theorem createBitmapResources_no_dc (env : OsEnv) (w h : Int)
    (hdcOpt : Option Nat) :
    ((createBitmapResources env w h hdcOpt).2.filter isDcCreate) = [] := by
  unfold createBitmapResources
  by_cases h1 : (env.createDIBSection w h
      (if optTruthy hdcOpt then hdcOpt.getD 0 else 0)).1 = 0
  · simp [h1, isDcCreate]
  · by_cases h2 : (env.createDIBSection w h
        (if optTruthy hdcOpt then hdcOpt.getD 0 else 0)).2 = 0 <;>
      simp [h1, h2, isDcCreate]

/-- When bitmap creation fails, any bitmap handle recorded in its trace is
either zero or deleted by the creator itself within that trace. -/
theorem createBitmapResources_none_released (env : OsEnv) (w h : Int)
    (hdcOpt : Option Nat)
    (hn : (createBitmapResources env w h hdcOpt).1 = none) :
    ∀ w2 h2 hdc hbm ptr,
      OsAct.createDIB w2 h2 hdc hbm ptr ∈ (createBitmapResources env w h hdcOpt).2 →
      hbm ≠ 0 → OsAct.deleteObject hbm ∈ (createBitmapResources env w h hdcOpt).2 := by
  unfold createBitmapResources at hn ⊢
  by_cases h1 : (env.createDIBSection w h
      (if optTruthy hdcOpt then hdcOpt.getD 0 else 0)).1 = 0
  · intro w2 h2 hdc hbm ptr hmem hne
    simp [h1] at hmem
    exact absurd hmem.2.2.2.1 hne
  · by_cases h2 : (env.createDIBSection w h
        (if optTruthy hdcOpt then hdcOpt.getD 0 else 0)).2 = 0
    · intro w2 h2x hdc hbm ptr hmem hne
      simp [h1, h2] at hmem ⊢
      exact hmem.2.2.2.1
    · simp [h1, h2] at hn

/-- When bitmap creation succeeds, the only bitmap handle recorded in its
trace is the returned one. -/
theorem createBitmapResources_some_handle (env : OsEnv) (w h : Int)
    (hdcOpt : Option Nat) (r : Nat × Int × BmpInfo)
    (hs : (createBitmapResources env w h hdcOpt).1 = some r) :
    ∀ w2 h2 hdc hbm ptr,
      OsAct.createDIB w2 h2 hdc hbm ptr ∈ (createBitmapResources env w h hdcOpt).2 →
      hbm = r.1 := by
  unfold createBitmapResources at hs ⊢
  by_cases h1 : (env.createDIBSection w h
      (if optTruthy hdcOpt then hdcOpt.getD 0 else 0)).1 = 0
  · simp [h1] at hs
  · by_cases h2 : (env.createDIBSection w h
        (if optTruthy hdcOpt then hdcOpt.getD 0 else 0)).2 = 0
    · simp [h1, h2] at hs
    · intro w2 h2x hdc hbm ptr hmem
      simp [h1, h2] at hmem hs ⊢
      rw [hmem.2.2.2.1, ← hs]

theorem pwCaptureWindowToBitmap_trace_ops (env : OsEnv) (s : GdiState)
    (w h : Int) (a b c : Option Nat) (buf : Option Int)
    (bmi : Option BmpInfo) :
    ((pwCaptureWindowToBitmap env s w h a b c buf bmi).2.2.filter isRelOrCre) = [] := by
  cases hA : (optTruthy a && optTruthy b && optTruthy c && bufTruthy buf &&
      bmi.isSome) <;>
    cases hP : env.printWindowOk <;>
    rcases eq_or_ne (env.getDIBitsLines h) h with hL | hL <;>
    rcases eq_or_ne (buf.getD 0) (w * h * 4) with hBuf | hBuf <;>
    simp [pwCaptureWindowToBitmap, hA, hP, hL, hBuf, List.filter_append,
      isRelOrCre, isReleaseAct, isCreateAct]

theorem acquiredReleased_captureIndependentGeneric (env : OsEnv) (hwnd : Nat)
    (w h : Int) (upw : Bool) :
    acquiredReleased (captureIndependentGeneric env hwnd w h upw).2 := by
  unfold captureIndependentGeneric
  dsimp only
  by_cases e1 : env.getDC hwnd = 0
  · refine ⟨?_, ?_, ?_⟩
    · intro hw d hmem hne
      simp [e1] at hmem
      exact absurd hmem.2 hne
    · intro src d hmem _
      simp [e1] at hmem
    · intro w2 h2 hdc hbm ptr hmem _
      simp [e1] at hmem
  · by_cases e2 : env.createCompatibleDC (env.getDC hwnd) = 0
    · refine ⟨?_, ?_, ?_⟩
      · intro hw d hmem hne
        simp [e1, e2] at hmem
        rcases hmem with ⟨rfl, rfl⟩
        simp [e1, e2]
      · intro src d hmem hne
        simp [e1, e2] at hmem
        exact absurd hmem.2 hne
      · intro w2 h2 hdc hbm ptr hmem _
        simp [e1, e2] at hmem
    · rcases hcr : createBitmapResources env w h (some (env.getDC hwnd))
        with ⟨r, t3⟩
      have hdc3 := createBitmapResources_no_dc env w h (some (env.getDC hwnd))
      rw [hcr] at hdc3
      have hdc3f := forall_false_of_filter_nil (p := isDcCreate) hdc3
      cases r with
      | none =>
          have hrel := createBitmapResources_none_released env w h
            (some (env.getDC hwnd)) (by rw [hcr])
          rw [hcr] at hrel
          refine ⟨?_, ?_, ?_⟩
          · intro hw d hmem hne
            simp [e1, e2] at hmem ⊢
            rcases hmem with ⟨rfl, rfl⟩ | hmem
            · simp
            · have := hdc3f _ hmem
              simp [isDcCreate] at this
          · intro src d hmem hne
            simp [e1, e2] at hmem ⊢
            rcases hmem with ⟨rfl, rfl⟩ | hmem
            · simp
            · have := hdc3f _ hmem
              simp [isDcCreate] at this
          · intro w2 h2 hdc hbm ptr hmem hne
            simp [e1, e2] at hmem ⊢
            have := hrel w2 h2 hdc hbm ptr hmem hne
            simp [this]
      | some r =>
          have hhandle := createBitmapResources_some_handle env w h
            (some (env.getDC hwnd)) r (by rw [hcr])
          rw [hcr] at hhandle
          have ht4 := forall_false_of_filter_nil
            (captureBitmapToImage_trace_ops env w h (some (env.getDC hwnd))
              (some (env.createCompatibleDC (env.getDC hwnd))) (some r.1)
              (some r.2.1) (some r.2.2) upw)
          refine ⟨?_, ?_, ?_⟩
          · intro hw d hmem hne
            simp [e1, e2] at hmem ⊢
            rcases hmem with ⟨rfl, rfl⟩ | hmem | hmem
            · simp
            · have := hdc3f _ hmem
              simp [isDcCreate] at this
            · have := ht4 _ hmem
              simp [isRelOrCre, isReleaseAct, isCreateAct] at this
          · intro src d hmem hne
            simp [e1, e2] at hmem ⊢
            rcases hmem with ⟨rfl, rfl⟩ | hmem | hmem
            · simp
            · have := hdc3f _ hmem
              simp [isDcCreate] at this
            · have := ht4 _ hmem
              simp [isRelOrCre, isReleaseAct, isCreateAct] at this
          · intro w2 h2 hdc hbm ptr hmem hne
            simp [e1, e2] at hmem ⊢
            rcases hmem with hmem | hmem
            · have := hhandle w2 h2 hdc hbm ptr hmem
              simp [this]
            · have := ht4 _ hmem
              simp [isRelOrCre, isReleaseAct, isCreateAct] at this

/-- The independent PrintWindow path never reaches the capture helper
(bitmap creation raises first), so the instance state is returned
unchanged. -/
theorem pwCaptureIndependent_state (env : OsEnv) (s : GdiState) (hwnd : Nat)
    (w h : Int) : (pwCaptureIndependent env s hwnd w h).2.1 = s := by
  unfold pwCaptureIndependent
  dsimp only
  by_cases e1 : env.getDC hwnd = 0
  · simp [e1]
  · by_cases e2 : env.createCompatibleDC (env.getDC hwnd) = 0 <;> simp [e1, e2]

theorem pwCaptureIndependent_fields (env : OsEnv) (s : GdiState) (hwnd : Nat)
    (w h : Int) :
    cachedFieldsEq (pwCaptureIndependent env s hwnd w h).2.1 s := by
  rw [pwCaptureIndependent_state]
  exact cachedFieldsEq_refl s

theorem acquiredReleased_pwCaptureIndependent (env : OsEnv) (s : GdiState)
    (hwnd : Nat) (w h : Int) :
    acquiredReleased (pwCaptureIndependent env s hwnd w h).2.2 := by
  unfold pwCaptureIndependent
  dsimp only
  by_cases e1 : env.getDC hwnd = 0
  · refine ⟨?_, ?_, ?_⟩
    · intro hw d hmem hne
      simp [e1] at hmem
      exact absurd hmem.2 hne
    · intro src d hmem _
      simp [e1] at hmem
    · intro w2 h2 hdc hbm ptr hmem _
      simp [e1] at hmem
  · by_cases e2 : env.createCompatibleDC (env.getDC hwnd) = 0
    · refine ⟨?_, ?_, ?_⟩
      · intro hw d hmem hne
        simp [e1, e2] at hmem
        rcases hmem with ⟨rfl, rfl⟩
        simp [e1, e2]
      · intro src d hmem hne
        simp [e1, e2] at hmem
        exact absurd hmem.2 hne
      · intro w2 h2 hdc hbm ptr hmem _
        simp [e1, e2] at hmem
    · refine ⟨?_, ?_, ?_⟩
      · intro hw d hmem hne
        simp [e1, e2] at hmem ⊢
        rcases hmem with ⟨rfl, rfl⟩
        simp
      · intro src d hmem hne
        simp [e1, e2] at hmem ⊢
        rcases hmem with ⟨rfl, rfl⟩
        simp
      · intro w2 h2 hdc hbm ptr hmem _
        simp [e1, e2] at hmem

/-- The capture result is either null or exactly the shape dictated by the
requested dimensions and the rescale configuration. -/
def shapeOk (env : OsEnv) (w h : Int) (r : Option Shape) : Prop :=
  r = none ∨ r = some (expectedShape env w h)

theorem captureBitmapToImage_shape (env : OsEnv) (w h : Int)
    (a b c : Option Nat) (buf : Option Int) (bmi : Option BmpInfo)
    (upw : Bool) (hsw : 0 < env.standardWidth)
    (hsh : 0 < env.standardHeight) :
    shapeOk env w h (captureBitmapToImage env w h a b c buf bmi upw).1 := by
  have h1 : (env.standardWidth != 0) = true := by
    simp only [bne_iff_ne, ne_eq]
    omega
  have h2 : (env.standardHeight != 0) = true := by
    simp only [bne_iff_ne, ne_eq]
    omega
  have h3 : decide (env.standardWidth > 0) = true := by
    simp only [decide_eq_true_eq]
    omega
  have h4 : decide (env.standardHeight > 0) = true := by
    simp only [decide_eq_true_eq]
    omega
  unfold shapeOk expectedShape
  cases hW : env.isWinScale <;>
    cases upw <;>
    cases hA : (optTruthy a && optTruthy b && optTruthy c && bufTruthy buf &&
      bmi.isSome) <;>
    cases hP : env.printWindowOk <;>
    cases hB : env.bitBltOk <;>
    rcases eq_or_ne (env.getDIBitsLines h) h with hL | hL <;>
    rcases eq_or_ne (buf.getD 0) (w * h * 4) with hBuf | hBuf <;>
    simp [captureBitmapToImage, hW, hA, hP, hB, hL, hBuf, h1, h2, h3, h4]

theorem pwCaptureWindowToBitmap_shape (env : OsEnv) (s : GdiState)
    (w h : Int) (a b c : Option Nat) (buf : Option Int)
    (bmi : Option BmpInfo) (hsw : 0 < env.standardWidth)
    (hsh : 0 < env.standardHeight) :
    shapeOk env w h (pwCaptureWindowToBitmap env s w h a b c buf bmi).1 := by
  have h3 : decide (env.standardWidth > 0) = true := by
    simp only [decide_eq_true_eq]
    omega
  have h4 : decide (env.standardHeight > 0) = true := by
    simp only [decide_eq_true_eq]
    omega
  unfold shapeOk expectedShape
  cases hW : env.isWinScale <;>
    cases hA : (optTruthy a && optTruthy b && optTruthy c && bufTruthy buf &&
      bmi.isSome) <;>
    cases hP : env.printWindowOk <;>
    rcases eq_or_ne (env.getDIBitsLines h) h with hL | hL <;>
    rcases eq_or_ne (buf.getD 0) (w * h * 4) with hBuf | hBuf <;>
    simp [pwCaptureWindowToBitmap, hW, hA, hP, hL, hBuf, h3, h4]

/-- A pixel buffer whose length disagrees with `width*height*4` always
produces a null result in the mixin capture helper. -/
theorem captureBitmapToImage_mismatch (env : OsEnv) (w h : Int)
    (a b c : Option Nat) (buf : Option Int) (bmi : Option BmpInfo)
    (upw : Bool) (hne : buf.getD 0 ≠ w * h * 4) :
    (captureBitmapToImage env w h a b c buf bmi upw).1 = none := by
  cases upw <;>
    cases hA : (optTruthy a && optTruthy b && optTruthy c && bufTruthy buf &&
      bmi.isSome) <;>
    cases hP : env.printWindowOk <;>
    cases hB : env.bitBltOk <;>
    rcases eq_or_ne (env.getDIBitsLines h) h with hL | hL <;>
    simp [captureBitmapToImage, hA, hP, hB, hL, hne]

/-- A pixel buffer whose length disagrees with `width*height*4` always
produces a null result in the PrintWindow capture helper. -/
theorem pwCaptureWindowToBitmap_mismatch (env : OsEnv) (s : GdiState)
    (w h : Int) (a b c : Option Nat) (buf : Option Int)
    (bmi : Option BmpInfo) (hne : buf.getD 0 ≠ w * h * 4) :
    (pwCaptureWindowToBitmap env s w h a b c buf bmi).1 = none := by
  cases hA : (optTruthy a && optTruthy b && optTruthy c && bufTruthy buf &&
      bmi.isSome) <;>
    cases hP : env.printWindowOk <;>
    rcases eq_or_ne (env.getDIBitsLines h) h with hL | hL <;>
    simp [pwCaptureWindowToBitmap, hA, hP, hL, hne]

theorem tryCaptureOnce_shape (env : OsEnv) (s : GdiState) (w h : Int)
    (upw : Bool) (hsw : 0 < env.standardWidth)
    (hsh : 0 < env.standardHeight) :
    shapeOk env w h (tryCaptureOnce env s w h upw).1 := by
  unfold tryCaptureOnce
  by_cases hn : (s.saveBitMap.isNone || s.width != w || s.height != h) = true
  · cases hE : (ensureBitmapResources env s w h none).1
    · simp [hn, hE, shapeOk]
    · simpa [hn, hE] using captureBitmapToImage_shape env w h _ _ _ _ _ upw
        hsw hsh
  · simpa [hn] using captureBitmapToImage_shape env w h _ _ _ _ _ upw hsw hsh

theorem captureIndependentGeneric_shape (env : OsEnv) (hwnd : Nat)
    (w h : Int) (upw : Bool) (hsw : 0 < env.standardWidth)
    (hsh : 0 < env.standardHeight) :
    shapeOk env w h (captureIndependentGeneric env hwnd w h upw).1 := by
  unfold captureIndependentGeneric
  dsimp only
  by_cases e1 : env.getDC hwnd = 0
  · simp [e1, shapeOk]
  · by_cases e2 : env.createCompatibleDC (env.getDC hwnd) = 0
    · simp [e1, e2, shapeOk]
    · rcases hcr : createBitmapResources env w h (some (env.getDC hwnd))
        with ⟨r, t3⟩
      cases r with
      | none => simp [e1, e2, shapeOk]
      | some r =>
          simpa [e1, e2] using captureBitmapToImage_shape env w h _ _ _ _ _
            upw hsw hsh

theorem captureCommon_shape (env : OsEnv) (s : GdiState) (rect : Rect)
    (indep upw retry : Bool) (hsw : 0 < env.standardWidth)
    (hsh : 0 < env.standardHeight) :
    shapeOk env rect.width rect.height
      (captureCommon env s rect indep upw retry).1 := by
  unfold captureCommon
  by_cases h0 : env.hwnd = 0
  · simp [h0, shapeOk]
  · by_cases hr : (decide (rect.width ≤ 0) || decide (rect.height ≤ 0)) = true
    · simp [h0, hr, shapeOk]
    · cases hi : indep with
      | true =>
          simpa [h0, hr] using captureIndependentGeneric_shape env env.hwnd
            rect.width rect.height upw hsw hsh
      | false =>
        by_cases hD : (s.hwndDC.isNone || s.mfcDC.isNone) = true
        · cases hI : (gdiInit env s).1
          · simp [h0, hr, hD, hI, shapeOk]
          · cases hS : (tryCaptureOnce env (gdiInit env s).2.1 rect.width
                rect.height upw).1.isSome
            · cases hretry : retry
              · simp [h0, hr, hD, hI, hS, hretry, shapeOk]
              · cases hI2 : (gdiInit env (tryCaptureOnce env
                    (gdiInit env s).2.1 rect.width rect.height upw).2.1).1
                · simp [h0, hr, hD, hI, hS, hretry, hI2, shapeOk]
                · simpa [h0, hr, hD, hI, hS, hretry, hI2] using
                    tryCaptureOnce_shape env _ rect.width rect.height upw
                      hsw hsh
            · simpa [h0, hr, hD, hI, hS] using
                tryCaptureOnce_shape env _ rect.width rect.height upw hsw hsh
        · cases hS : (tryCaptureOnce env s rect.width rect.height
              upw).1.isSome
          · cases hretry : retry
            · simp [h0, hr, hD, hS, hretry, shapeOk]
            · cases hI2 : (gdiInit env (tryCaptureOnce env s rect.width
                  rect.height upw).2.1).1
              · simp [h0, hr, hD, hS, hretry, hI2, shapeOk]
              · simpa [h0, hr, hD, hS, hretry, hI2] using
                  tryCaptureOnce_shape env _ rect.width rect.height upw
                    hsw hsh
          · simpa [h0, hr, hD, hS] using
              tryCaptureOnce_shape env s rect.width rect.height upw hsw hsh

theorem pwCaptureAttempt_shape (env : OsEnv) (s : GdiState) (w h : Int)
    (hsw : 0 < env.standardWidth) (hsh : 0 < env.standardHeight) :
    shapeOk env w h (pwCaptureAttempt env s w h).1 := by
  unfold pwCaptureAttempt
  by_cases hn : (s.saveBitMap.isNone || s.width != w || s.height != h) = true
  · have hE := pwEnsureBitmapResources_fail s w h hn
    simp [hn, hE, shapeOk]
  · simpa [hn] using pwCaptureWindowToBitmap_shape env s w h _ _ _ _ _ hsw hsh

/-- The independent PrintWindow path always returns null: creation raises
before the capture step. -/
theorem pwCaptureIndependent_shape (env : OsEnv) (s : GdiState) (hwnd : Nat)
    (w h : Int) (hsw : 0 < env.standardWidth)
    (hsh : 0 < env.standardHeight) :
    shapeOk env w h (pwCaptureIndependent env s hwnd w h).1 := by
  unfold pwCaptureIndependent
  dsimp only
  by_cases e1 : env.getDC hwnd = 0
  · simp [e1, shapeOk]
  · by_cases e2 : env.createCompatibleDC (env.getDC hwnd) = 0 <;>
      simp [e1, e2, shapeOk]

theorem pwCapture_shape (env : OsEnv) (s : GdiState) (rect : Rect)
    (indep : Bool) (hsw : 0 < env.standardWidth)
    (hsh : 0 < env.standardHeight) :
    shapeOk env rect.width rect.height (pwCapture env s rect indep).1 := by
  unfold pwCapture
  by_cases h0 : env.hwnd = 0
  · simp [h0, shapeOk]
  · by_cases hr : (decide (rect.width ≤ 0) || decide (rect.height ≤ 0)) = true
    · simp [h0, hr, shapeOk]
    · cases hi : indep with
      | true =>
          simpa [h0, hr] using pwCaptureIndependent_shape env s env.hwnd
            rect.width rect.height hsw hsh
      | false =>
        by_cases hD : (s.hwndDC.isNone || s.mfcDC.isNone) = true
        · cases hI : (gdiInit env s).1
          · simp [h0, hr, hD, hI, shapeOk]
          · cases hS : (pwCaptureAttempt env (gdiInit env s).2.1 rect.width
                rect.height).1.isSome
            · cases hI2 : (gdiInit env (pwCaptureAttempt env
                  (gdiInit env s).2.1 rect.width rect.height).2.1).1
              · simp [h0, hr, hD, hI, hS, hI2, shapeOk]
              · simpa [h0, hr, hD, hI, hS, hI2] using
                  pwCaptureAttempt_shape env _ rect.width rect.height hsw hsh
            · simpa [h0, hr, hD, hI, hS] using
                pwCaptureAttempt_shape env _ rect.width rect.height hsw hsh
        · cases hS : (pwCaptureAttempt env s rect.width rect.height).1.isSome
          · cases hI2 : (gdiInit env (pwCaptureAttempt env s rect.width
                rect.height).2.1).1
            · simp [h0, hr, hD, hS, hI2, shapeOk]
            · simpa [h0, hr, hD, hS, hI2] using
                pwCaptureAttempt_shape env _ rect.width rect.height hsw hsh
          · simpa [h0, hr, hD, hS] using
              pwCaptureAttempt_shape env s rect.width rect.height hsw hsh

/-! ### Claim theorems at the strategy level -/

/-- C7: controller cleanup is idempotent.  From every state, a second
`cleanup_resources()` call returns exactly the state produced by the first
one and performs no OS action at all — in particular it releases no handle
that the first call already released — and after the first call the active
strategy name is `None` (Uninitialized). -/
theorem claim_C7_cleanup_idempotent (c : CtrlState) :
    cleanupResources (cleanupResources c).1 = ((cleanupResources c).1, []) ∧
    (cleanupResources c).1.active = none := by
  constructor
  · show cleanupResources (cleanupResources c).1 = _
    unfold cleanupResources
    simp [gdiCleanup_idem]
  · rfl

/-- C8: bitmap resource creation fails (raises) exactly when the OS call
yields a zero bitmap handle or a null pixel pointer; in the
partial-failure case (valid handle, null pointer) the creator deletes the
half-built handle itself before raising; a returned triple always carries
the nonzero handle, so no half-built handle escapes. -/
theorem claim_C8_creation_failure (env : OsEnv) (w h : Int)
    (hwndDC : Option Nat) :
    ((createBitmapResources env w h hwndDC).1 = none ↔
      (env.createDIBSection w h
        (if optTruthy hwndDC then hwndDC.getD 0 else 0)).1 = 0 ∨
      (env.createDIBSection w h
        (if optTruthy hwndDC then hwndDC.getD 0 else 0)).2 = 0) ∧
    ((env.createDIBSection w h
        (if optTruthy hwndDC then hwndDC.getD 0 else 0)).1 ≠ 0 →
     (env.createDIBSection w h
        (if optTruthy hwndDC then hwndDC.getD 0 else 0)).2 = 0 →
      OsAct.deleteObject (env.createDIBSection w h
        (if optTruthy hwndDC then hwndDC.getD 0 else 0)).1 ∈
        (createBitmapResources env w h hwndDC).2) ∧
    (∀ r, (createBitmapResources env w h hwndDC).1 = some r →
      r.1 = (env.createDIBSection w h
        (if optTruthy hwndDC then hwndDC.getD 0 else 0)).1 ∧ r.1 ≠ 0) := by
  unfold createBitmapResources
  by_cases h1 : (env.createDIBSection w h
      (if optTruthy hwndDC then hwndDC.getD 0 else 0)).1 = 0
  · simp [h1]
  · by_cases h2 : (env.createDIBSection w h
        (if optTruthy hwndDC then hwndDC.getD 0 else 0)).2 = 0
    · simp [h1, h2]
    · simp [h1, h2]

/-- C8 witness: a `CreateDIBSection` outcome with a valid handle 7 and a
null pixel pointer makes creation fail and delete handle 7 itself. -/
theorem claim_C8_creation_failure_witness :
    (createBitmapResources
      { envPwFail with createDIBSection := fun _ _ _ => (7, 0) } 4 2 none).1
        = none ∧
    OsAct.deleteObject 7 ∈
      (createBitmapResources
        { envPwFail with createDIBSection := fun _ _ _ => (7, 0) } 4 2 none).2 := by
  refine ⟨(claim_C8_creation_failure
      { envPwFail with createDIBSection := fun _ _ _ => (7, 0) } 4 2 none).1.mpr
      (by decide),
    (claim_C8_creation_failure
      { envPwFail with createDIBSection := fun _ _ _ => (7, 0) } 4 2 none).2.1
      (by decide) (by decide)⟩

/-- C4: for every well-formed rectangle (width > 0, height > 0) and
positive standard dimensions, a BitBlt/GDI or PrintWindow `capture()`
call (cached or independent) returns either null or an image shaped
`(height, width, 3)` — post-rescale, i.e. `(standard_height,
standard_width, 3)` when the rescale flag is set; and a pixel buffer whose
length disagrees with `width*height*4` is detected by the conversion step
and turned into a null result in both capture helpers. -/
theorem claim_C4_capture_shape (env : OsEnv) (s : GdiState) (rect : Rect)
    (indep upw retry : Bool) (hw : 0 < rect.width) (hh : 0 < rect.height)
    (hsw : 0 < env.standardWidth) (hsh : 0 < env.standardHeight) :
    shapeOk env rect.width rect.height
      (captureCommon env s rect indep upw retry).1 ∧
    shapeOk env rect.width rect.height (pwCapture env s rect indep).1 ∧
    (∀ a b c buf bmi upw2, buf.getD 0 ≠ rect.width * rect.height * 4 →
      (captureBitmapToImage env rect.width rect.height a b c buf bmi
        upw2).1 = none) ∧
    (∀ a b c buf bmi, buf.getD 0 ≠ rect.width * rect.height * 4 →
      (pwCaptureWindowToBitmap env s rect.width rect.height a b c buf
        bmi).1 = none) :=
  ⟨captureCommon_shape env s rect indep upw retry hsw hsh,
   pwCapture_shape env s rect indep hsw hsh,
   fun a b c buf bmi upw2 hne =>
     captureBitmapToImage_mismatch env rect.width rect.height a b c buf bmi
       upw2 hne,
   fun a b c buf bmi hne =>
     pwCaptureWindowToBitmap_mismatch env s rect.width rect.height a b c buf
       bmi hne⟩

/-- C4 witness: the shape contract evaluated on a concrete successful
BitBlt capture. -/
theorem claim_C4_capture_shape_witness :
    shapeOk envPwFail 4 2
      (captureCommon envPwFail sCached ⟨0, 0, 4, 2⟩ false false false).1 ∧
    (captureCommon envPwFail sCached ⟨0, 0, 4, 2⟩ false false false).1 =
      some ⟨2, 4, 3⟩ :=
  ⟨(claim_C4_capture_shape envPwFail sCached ⟨0, 0, 4, 2⟩ false false false
      (by decide) (by decide) (by decide) (by decide)).1,
   by decide⟩

/-- C3 counterexample: on a fully initialized PrintWindow strategy whose
paint primitive fails, one non-independent `capture()` call returns null
but does NOT leave the cached resources intact: it deletes the cached
bitmap (handle 3) and compatible DC (handle 2), releases the cached window
DC (handle 1), and ends with different cached fields — the reinit inside
`capture()` discarded the resources, contradicting the claim that
per-capture primitive failures leave cached device contexts, bitmap and
buffer intact and that only an explicit reinit discards them. -/
theorem claim_C3_counterexample :
    (pwCapture envPwFail sCached ⟨0, 0, 4, 2⟩ false).1 = none ∧
    (pwCapture envPwFail sCached ⟨0, 0, 4, 2⟩ false).2.1.saveBitMap ≠ some 3 ∧
    (pwCapture envPwFail sCached ⟨0, 0, 4, 2⟩ false).2.1.hwndDC ≠ some 1 ∧
    OsAct.deleteObject 3 ∈ (pwCapture envPwFail sCached ⟨0, 0, 4, 2⟩ false).2.2 ∧
    OsAct.deleteDC 2 ∈ (pwCapture envPwFail sCached ⟨0, 0, 4, 2⟩ false).2.2 ∧
    OsAct.releaseDC 5 1 ∈ (pwCapture envPwFail sCached ⟨0, 0, 4, 2⟩ false).2.2 := by
  decide

/-- C3 (amended): for a BitBlt-style cached capture (which passes
`retry=False`) on an initialized strategy whose cached bitmap matches the
requested dimensions, a failing copy primitive makes the call return null
with the cached state bit-for-bit unchanged and no handle released.  The
PrintWindow strategy instead reacts to a failed attempt by reinitializing
inside `capture()` — discarding the cached DCs and bitmap and re-acquiring
the DCs — but its retry then dies at bitmap (re)creation, because
`PrintWindowScreencapper` lacks `BitmapResourceMixin` and
`self._create_bitmap_resources` raises `AttributeError` (caught, null):
the bitmap is never re-created and the paint primitive is invoked at most
once per `capture()` call, so no strategy ever repeats the same failing
primitive within one call. -/
theorem claim_C3_amended (env : OsEnv) (s : GdiState) (rect : Rect)
    (hprim : env.bitBltOk = false)
    (hdc1 : s.hwndDC.isSome = true) (hdc2 : s.mfcDC.isSome = true)
    (hbm : s.saveBitMap.isSome = true)
    (hw : s.width = rect.width) (hh : s.height = rect.height) :
    (bitbltCapture env s rect false).1 = none ∧
    (bitbltCapture env s rect false).2.1 = s ∧
    (∀ x ∈ (bitbltCapture env s rect false).2.2, isReleaseAct x = false) ∧
    (∀ e2 s2 r2, countPW (pwCapture e2 s2 r2 false).2.2 ≤ 1) := by
  have hD : (s.hwndDC.isNone || s.mfcDC.isNone) = false := by
    cases hx : s.hwndDC <;> cases hy : s.mfcDC <;> simp_all
  have hneeds : (s.saveBitMap.isNone || s.width != rect.width ||
      s.height != rect.height) = false := by
    cases hx : s.saveBitMap <;> simp_all [hw, hh]
  have hcap := captureBitmapToImage_bitblt_fail env rect.width rect.height
    s.hwndDC s.mfcDC s.saveBitMap s.buffer s.bmpinfoBuffer hprim
  have htro := forall_false_of_filter_nil
    (captureBitmapToImage_trace_ops env rect.width rect.height s.hwndDC
      s.mfcDC s.saveBitMap s.buffer s.bmpinfoBuffer false)
  have hres : bitbltCapture env s rect false =
      (none, s, (captureBitmapToImage env rect.width rect.height s.hwndDC
        s.mfcDC s.saveBitMap s.buffer s.bmpinfoBuffer false).2) ∨
      bitbltCapture env s rect false = (none, s, []) := by
    unfold bitbltCapture captureCommon
    by_cases h0 : env.hwnd = 0
    · right; simp [h0]
    · by_cases hr2 : (decide (rect.width ≤ 0) || decide (rect.height ≤ 0)) = true
      · right; simp [h0, hr2]
      · left; simp [h0, hr2, hD, hneeds, tryCaptureOnce, hcap]
  have htr : ∀ x ∈ (bitbltCapture env s rect false).2.2, isReleaseAct x = false := by
    rcases hres with hres | hres <;> rw [hres]
    · intro x hx
      have h2 := htro x hx
      simp only [isRelOrCre, Bool.or_eq_false_iff] at h2
      exact h2.1
    · intro x hx
      simp at hx
  rcases hres with hres | hres <;>
    exact ⟨by rw [hres], by rw [hres], htr, fun e2 s2 r2 => countPW_pwCapture e2 s2 r2⟩

/-- C3 amended witness: concrete failing BitBlt capture on an initialized
cached strategy returns null and leaves the state unchanged. -/
theorem claim_C3_amended_witness :
    (bitbltCapture { envPwFail with bitBltOk := false } sCached
      ⟨0, 0, 4, 2⟩ false).1 = none ∧
    (bitbltCapture { envPwFail with bitBltOk := false } sCached
      ⟨0, 0, 4, 2⟩ false).2.1 = sCached := by
  have h := claim_C3_amended { envPwFail with bitBltOk := false } sCached
    ⟨0, 0, 4, 2⟩ (by decide) (by decide) (by decide) (by decide) (by decide)
    (by decide)
  exact ⟨h.1, h.2.1⟩

theorem acquiredReleased_nil : acquiredReleased [] := by
  refine ⟨?_, ?_, ?_⟩ <;> simp

/-- C6: independent capture calls are isolated.  For the GDI strategy,
`capture(independent=true)` returns the instance state bit-for-bit
unchanged and every handle acquired during the call (window DC, compatible
DC, bitmap) is released within the call's own trace by the
guaranteed-cleanup block; the PrintWindow strategy's independent path
leaves all cached fields (hwndDC, mfcDC, saveBitMap, buffer,
bmpinfo_buffer, width, height, hwnd_for_dc) unchanged and likewise
releases its private triple; and a controller `get_screenshot` call with
`independent=True` never changes the active strategy name, whatever the
outcome. -/
theorem claim_C6_independent_isolation (env : OsEnv) (s : GdiState)
    (rect : Rect) (upw retry : Bool) :
    (captureCommon env s rect true upw retry).2.1 = s ∧
    acquiredReleased (captureCommon env s rect true upw retry).2.2 ∧
    cachedFieldsEq (pwCapture env s rect true).2.1 s ∧
    acquiredReleased (pwCapture env s rect true).2.2 ∧
    (∀ capOf active r, (get_screenshot capOf active r true).2.1 = active) := by
  refine ⟨?_, ?_, ?_, ?_, ?_⟩
  · unfold captureCommon
    by_cases h0 : env.hwnd = 0
    · simp [h0]
    · by_cases hr : (decide (rect.width ≤ 0) || decide (rect.height ≤ 0)) = true <;>
        simp [h0, hr]
  · unfold captureCommon
    by_cases h0 : env.hwnd = 0
    · simpa [h0] using acquiredReleased_nil
    · by_cases hr : (decide (rect.width ≤ 0) || decide (rect.height ≤ 0)) = true
      · simpa [h0, hr] using acquiredReleased_nil
      · simpa [h0, hr] using acquiredReleased_captureIndependentGeneric env
          env.hwnd rect.width rect.height upw
  · unfold pwCapture
    by_cases h0 : env.hwnd = 0
    · simpa [h0] using cachedFieldsEq_refl s
    · by_cases hr : (decide (rect.width ≤ 0) || decide (rect.height ≤ 0)) = true
      · simpa [h0, hr] using cachedFieldsEq_refl s
      · simpa [h0, hr] using pwCaptureIndependent_fields env s env.hwnd
          rect.width rect.height
  · unfold pwCapture
    by_cases h0 : env.hwnd = 0
    · simpa [h0] using acquiredReleased_nil
    · by_cases hr : (decide (rect.width ≤ 0) || decide (rect.height ≤ 0)) = true
      · simpa [h0, hr] using acquiredReleased_nil
      · simpa [h0, hr] using acquiredReleased_pwCaptureIndependent env s
          env.hwnd rect.width rect.height
  · intro capOf active r
    unfold get_screenshot
    cases r with
    | none => simp
    | some r0 => simpa using tryCapture_independent_active capOf active _

/-- C9 counterexample: after a successful `init()` from the empty state,
the strategy holds the two device contexts but no bitmap, buffer or bitmap
info — a partial resource set, contradicting the zero-or-all claim (the
bitmap triple is created lazily by the first capture). -/
theorem claim_C9_counterexample :
    (gdiInit envPwFail {}).1 = true ∧
    ¬gdiAllOrNothing (gdiInit envPwFail {}).2.1 := by
  constructor
  · decide
  · intro h
    rcases h with h | h
    · exact absurd h.1 (by decide)
    · exact absurd h.2.2.1 (by decide)

/-- C9 (amended): every public strategy call preserves the grouped
resource invariant the code actually maintains: from a consistent state,
after `init`, `cleanup`, a BitBlt/GDI `capture` or a PrintWindow `capture`
the DC triple is all-or-nothing, the bitmap triple is all-or-nothing, and
a bitmap is held only together with the DCs; a successful `init` leaves
the DCs present and the bitmap triple absent (lazy creation), so the
original single all-or-nothing set does not hold across groups. -/
theorem claim_C9_amended (env : OsEnv) (s : GdiState) (rect : Rect)
    (indep upw retry : Bool) (hc : resourceConsistent s) :
    resourceConsistent (gdiInit env s).2.1 ∧
    resourceConsistent (gdiCleanup s).1 ∧
    resourceConsistent (captureCommon env s rect indep upw retry).2.1 ∧
    resourceConsistent (pwCapture env s rect indep).2.1 ∧
    ((gdiInit env s).1 = true →
      (gdiInit env s).2.1.hwndDC.isSome = true ∧
      (gdiInit env s).2.1.saveBitMap = none) :=
  ⟨resourceConsistent_gdiInit env s, resourceConsistent_gdiCleanup s,
   resourceConsistent_captureCommon env s rect indep upw retry hc,
   resourceConsistent_pwCapture env s rect indep hc,
   fun h => ⟨(gdiInit_success_state env s h).1,
     (gdiInit_success_state env s h).2.2.2.1⟩⟩

/-- C9 amended witness: the invariant holds concretely through a capture
call from the freshly initialized (DC-only) state. -/
theorem claim_C9_amended_witness :
    resourceConsistent sCached ∧
    resourceConsistent
      (captureCommon envPwFail sCached ⟨0, 0, 4, 2⟩ false false false).2.1 := by
  refine ⟨by unfold resourceConsistent; decide, ?_⟩
  exact (claim_C9_amended envPwFail sCached ⟨0, 0, 4, 2⟩ false false false
    (by unfold resourceConsistent; decide)).2.2.1

end PcScreenshot
